import Mathlib

/-!
Shallow embedding of the recall-agent trading core (TypeScript sources) in Lean 4,
together with theorems settling the frozen claims about its specification.

Conventions of the embedding:
* JS `number` is modelled by `ℚ`, which has no `Infinity` or `NaN`: division
  by zero is Lean's `x / 0 = 0`. On every path reached by the theorems below
  this yields the source's branch outcome, with three audited exceptions,
  none representable in `ℚ`: (1) a breakout with a zero-width recent range
  gets confidence `0.7` here where the source computes `min(0.9, 0.7 + ∞) =
  0.9` (both in `[0,1]`); (2) a mean-reversion cycle whose SMA is exactly `0`
  is suppressed here where the source's `±Infinity` deviation emits a
  confidence-`0.9` signal (well-formed on both sides); (3) with
  `breakoutLookbackPeriod = 0` the source's empty recent window makes
  `Math.max()` return `-Infinity` and the breakout buy's confidence `NaN` —
  an ill-formed instruction this embedding cannot express, which is why the
  well-formedness theorem below assumes a positive breakout lookback.
* JS objects used as string-keyed maps are modelled by association lists
  (`List (String × ℚ)`), with JS's falsy test `!price` modelled by comparison
  with `0` (an absent key looks up to `0`).
* The sqlite market-data store is modelled by its observable interface: a map
  from token address to the chronological (oldest-first) list of stored points;
  `getMarketDataByToken` returns the most recent `limit` points oldest-first,
  exactly like the `ORDER BY timestamp DESC LIMIT ?` query followed by `reverse()`.
* External collaborators (the OpenAI advisory client, the CoinGecko token
  discovery client) are modelled by their responses, passed as parameters.
* Human-readable reason strings are kept, with the numeric `toFixed`
  interpolations of the source elided (no claim inspects the digits).
-/

namespace RecallAgent

/-- Token addresses from `src/types/index.ts` (`TOKENS`). -/
def USDC : String := "0xA0b86991c6218b36c1d19D4a2e9Eb0cE3606eB48"

/-- WETH address from `TOKENS`. -/
def WETH : String := "0xC02aaA39b223FE8D0A0e5C4F27eAD9083C756Cc2"

/-- WBTC address from `TOKENS`. -/
def WBTC : String := "0x2260FAC5E5542a773Aa44fBCfeDf7C193bc2C599"

/-- DAI address from `TOKENS`. -/
def DAI : String := "0x6B175474E89094C44Da98b954EedeAC495271d0F"

/-- USDT address from `TOKENS`. -/
def USDT : String := "0xdAC17F958D2ee523a2206206994597C13D831ec7"

/-- The list `Object.values(TOKENS)` in source order. -/
def tokensValues : List String := [USDC, WETH, WBTC, DAI, USDT]

/-- One portfolio holding (`Token` in `src/types/index.ts`). -/
structure Token where
  token : String
  amount : ℚ
  price : ℚ
  value : ℚ
  chain : String
  symbol : String
deriving Repr, DecidableEq

/-- The portfolio part of a market snapshot (`Portfolio`). -/
structure Portfolio where
  totalValue : ℚ
  tokens : List Token
deriving Repr, DecidableEq

/-- Trade action (`'buy' | 'sell' | 'hold'`). -/
inductive Action where
  | buy
  | sell
  | hold
deriving Repr, DecidableEq

/-- A candidate trading instruction (`TradingDecision` in `src/types/index.ts`). -/
structure TradingDecision where
  action : Action
  fromToken : String
  toToken : String
  amount : ℚ
  reason : String
  confidence : ℚ
  isGuaranteedMemeTrade : Bool := false
deriving Repr, DecidableEq

/-- Agent state as read by the Risk Gate (`AgentState`). -/
structure AgentState where
  totalTrades : ℕ
  totalPnL : ℚ
  dailyPnL : ℚ
  isActive : Bool
deriving Repr, DecidableEq

/-- A market snapshot (`MarketData`): portfolio plus a price map. -/
structure MarketData where
  portfolio : Portfolio
  prices : List (String × ℚ)
  timestamp : String
deriving Repr, DecidableEq

/-- JS `marketData.prices[token]`, with an absent key reading as `0`
(the code only ever tests the result against falsiness or uses it in
arithmetic whose guards reject `0`). -/
def lookupPrice (prices : List (String × ℚ)) (token : String) : ℚ :=
  match prices.find? (fun p => p.1 == token) with
  | some p => p.2
  | none => 0

/-- JS `portfolio.tokens.find(t => t.token === addr)`. -/
def findToken (md : MarketData) (addr : String) : Option Token :=
  md.portfolio.tokens.find? (fun t => t.token == addr)

/-- `getTokenBalance` as defined identically in every strategy class:
the found holding's `amount`, else `0`. -/
def getTokenBalance (md : MarketData) (addr : String) : ℚ :=
  match findToken md addr with
  | some t => t.amount
  | none => 0

/-- One stored market-data row (`MarketDataPoint`). -/
structure MarketDataPoint where
  timestamp : String
  price : ℚ
deriving Repr, DecidableEq

/-- The market-data store, keyed by token address; each list is
chronological, oldest first. -/
def Db : Type := String → List MarketDataPoint

/-- The last `n` elements of a list (in order). -/
def takeLast (l : List α) (n : ℕ) : List α :=
  (l.reverse.take n).reverse

/-- JS `arr.slice(-n)` (for `n > 0` the last `n` elements; `slice(-0)`
is the whole array). -/
def sliceNeg (l : List α) (n : ℕ) : List α :=
  if n = 0 then l else takeLast l n

/-- JS `arr.slice(-(n+1), -1)`: up to `n+1` trailing elements with the
final one removed. -/
def slicePrev (l : List α) (n : ℕ) : List α :=
  (takeLast l (n + 1)).dropLast

/-- `MarketDataRepository.getMarketDataByToken`: the `limit` most recent
rows for the token, returned oldest-first. -/
def getMarketDataByToken (db : Db) (token : String) (limit : ℕ) : List MarketDataPoint :=
  takeLast (db token) limit

/-- `MarketDataRepository.saveMarketData` under the `INSERT OR REPLACE`
unique key `(timestamp, token_address)`: any row with the same timestamp
is replaced, otherwise the row is appended. -/
def saveMarketData (db : Db) (ts : String) (token : String) (price : ℚ) : Db :=
  fun t =>
    if t == token then
      (db t).filter (fun p => p.timestamp != ts) ++ [⟨ts, price⟩]
    else db t

/-- `calculateSMA`, defined identically in the trend-following and
mean-reversion strategies: arithmetic mean of the stored prices, `0` on
an empty list. -/
def calculateSMA (prices : List MarketDataPoint) : ℚ :=
  if prices.length = 0 then 0
  else (prices.map (fun p => p.price)).sum / (prices.length : ℚ)

/-- The LLM objective parameter (`'maximize_profit' | 'maximize_loss'`). -/
inductive LlmObjective where
  | maximizeProfit
  | maximizeLoss
deriving Repr, DecidableEq

/-- The strategy parameter record (`StrategyParams` in
`src/strategy/strategyParams.ts`), restricted to the fields the decision
core reads. -/
structure StrategyParams where
  maxPositionSize : ℚ
  minTradeAmount : ℚ
  rebalanceThreshold : ℚ
  targetAllocations : List (String × ℚ)
  meanReversionLookbackPeriod : ℕ
  meanReversionDeviationThreshold : ℚ
  trendFollowingShortSmaPeriod : ℕ
  trendFollowingLongSmaPeriod : ℕ
  breakoutLookbackPeriod : ℕ
  breakoutVolatilityThreshold : ℚ
  breakoutConfirmationFactor : ℚ
  lossStrategyEnabled : Bool
  lossStrategyTargetAllocation : ℚ
  llmEnabled : Bool
  llmObjective : LlmObjective
  guaranteedMemeTradeEnabled : Bool
  guaranteedMemeTradeAmountUSD : ℚ
deriving Repr, DecidableEq

/-- `StrategyParamsManager.getDefaultParams`, with the environment
defaults of the source (`MAX_POSITION_SIZE_PERCENT` 20, `MIN_TRADE_AMOUNT_USDC` 10). -/
def getDefaultParams : StrategyParams where
  maxPositionSize := 20 / 100
  minTradeAmount := 10
  rebalanceThreshold := 1 / 100
  targetAllocations := [(USDC, 4 / 10), (WETH, 35 / 100), (WBTC, 25 / 100)]
  meanReversionLookbackPeriod := 20
  meanReversionDeviationThreshold := 1 / 100
  trendFollowingShortSmaPeriod := 10
  trendFollowingLongSmaPeriod := 50
  breakoutLookbackPeriod := 50
  breakoutVolatilityThreshold := 2 / 100
  breakoutConfirmationFactor := 2 / 1000
  lossStrategyEnabled := false
  lossStrategyTargetAllocation := 95 / 100
  llmEnabled := false
  llmObjective := LlmObjective.maximizeProfit
  guaranteedMemeTradeEnabled := false
  guaranteedMemeTradeAmountUSD := 10

/-- The risk-limit record of `RiskManager` (`riskParams`). -/
structure RiskParams where
  maxDailyLoss : ℚ
  maxPositionSize : ℚ
  minTradeAmount : ℚ
  maxTradesPerHour : ℚ
  stopLossThreshold : ℚ
  maxDrawdown : ℚ
deriving Repr, DecidableEq

/-- One entry of the in-memory trade-frequency window (`tradeHistory`);
timestamps are epoch milliseconds. -/
structure TradeEntry where
  timestamp : ℤ
  amount : ℚ
deriving Repr, DecidableEq

/-- The structured result of `RiskManager.validateTrade`
(`{ isValid: boolean; reason?: string }`). -/
structure ValidationResult where
  isValid : Bool
  reason : Option String
deriving Repr, DecidableEq

/-- `RiskManager.isDailyLossExceeded`. -/
def isDailyLossExceeded (rp : RiskParams) (st : AgentState) : Bool :=
  decide (st.dailyPnL < 0 ∧ |st.dailyPnL| / 100 > rp.maxDailyLoss)

/-- `RiskManager.isTradeAmountValid`: the USD value of the trade (buys are
denominated in USDC already, sells are converted at the source-token price)
must reach the minimum trade amount. -/
def isTradeAmountValid (rp : RiskParams) (d : TradingDecision) (md : MarketData) : Bool :=
  let tradeValueUSD :=
    if d.action = Action.buy then d.amount
    else d.amount * lookupPrice md.prices d.fromToken
  decide (tradeValueUSD ≥ rp.minTradeAmount)

/-- `RiskManager.isPositionSizeValid`: the post-trade value of the target
position must not exceed `maxPositionSize` times total value. -/
def isPositionSizeValid (rp : RiskParams) (d : TradingDecision) (md : MarketData) : Bool :=
  let totalValue := md.portfolio.totalValue
  let maxPositionValue := totalValue * rp.maxPositionSize
  let tradeValue :=
    if d.action = Action.buy then d.amount
    else d.amount * lookupPrice md.prices d.fromToken
  let targetToken := if d.action = Action.buy then d.toToken else d.fromToken
  let currentTokenValue :=
    match findToken md targetToken with
    | some t => t.value
    | none => 0
  let newPositionValue :=
    if d.action = Action.buy then currentTokenValue + tradeValue
    else currentTokenValue - tradeValue
  decide (newPositionValue ≤ maxPositionValue)

/-- `RiskManager.hasSufficientBalance`: the source-token holding must
cover the amount plus a fixed 1% buffer; a missing source token fails. -/
def hasSufficientBalance (d : TradingDecision) (md : MarketData) : Bool :=
  match findToken md d.fromToken with
  | none => false
  | some fromToken =>
      let requiredAmount := d.amount
      let availableAmount := fromToken.amount
      let buffer : ℚ := 1 / 100
      decide (availableAmount ≥ requiredAmount * (1 + buffer))

/-- The pruning step of `RiskManager.isTradeFrequencyValid`: keep the
entries of the trailing 60 minutes (strictly newer than `now` minus one
hour in milliseconds). -/
def pruneHistory (hist : List TradeEntry) (now : ℤ) : List TradeEntry :=
  hist.filter (fun t => decide (t.timestamp > now - 60 * 60 * 1000))

/-- `RiskManager.isTradeFrequencyValid`: after pruning, the count of
recent trades must be strictly below the hourly cap. -/
def isTradeFrequencyValid (rp : RiskParams) (hist : List TradeEntry) (now : ℤ) : Bool :=
  decide (((pruneHistory hist now).length : ℚ) < rp.maxTradesPerHour)

/-- `RiskManager.isMaxDrawdownExceeded`: drawdown from the hard-coded
reference starting value 10000. -/
def isMaxDrawdownExceeded (rp : RiskParams) (md : MarketData) : Bool :=
  let currentValue := md.portfolio.totalValue
  let initialValue : ℚ := 10000
  decide ((initialValue - currentValue) / initialValue > rp.maxDrawdown)

/-- `RiskManager.recordTrade`: append a `(now, amount)` entry to the
frequency window. -/
def recordTrade (hist : List TradeEntry) (now : ℤ) (amount : ℚ) : List TradeEntry :=
  hist ++ [⟨now, amount⟩]

/-- Modelled from the spec: `performMinimalRiskChecks` is invoked by
`RiskManager.validateTrade` on every bypass path but its definition is
not among the provided sources; the spec states that in bypass modes
"only a minimal non-empty-balance check runs". We model it as that
check: the source-token holding must be non-empty, with a structured
rejection otherwise. -/
def performMinimalRiskChecks (d : TradingDecision) (md : MarketData) : ValidationResult :=
  if getTokenBalance md d.fromToken > 0 then
    { isValid := true, reason := none }
  else
    { isValid := false, reason := some "Insufficient balance for bypass trade" }

/-- Whether the parameter store (when wired: the constructor argument is
optional in the source) puts the Risk Gate in a bypass mode: LLM mode
with a loss objective, or the loss strategy flag. -/
def bypassParams : Option StrategyParams → Bool
  | none => false
  | some p => (p.llmEnabled && decide (p.llmObjective = LlmObjective.maximizeLoss))
      || p.lossStrategyEnabled

/-- `RiskManager.validateTrade`: the ordered short-circuiting checks of
the Risk Gate. `pm` is the optional `paramsManager` snapshot, `hist` the
current frequency window, `now` the clock in epoch milliseconds. -/
def validateTrade (pm : Option StrategyParams) (rp : RiskParams)
    (hist : List TradeEntry) (now : ℤ)
    (d : TradingDecision) (md : MarketData) (st : AgentState) : ValidationResult :=
  if d.isGuaranteedMemeTrade then
    performMinimalRiskChecks d md
  else
    match pm with
    | some params =>
        if params.llmEnabled && decide (params.llmObjective = LlmObjective.maximizeLoss) then
          performMinimalRiskChecks d md
        else if params.lossStrategyEnabled then
          performMinimalRiskChecks d md
        else
          validateTradeChecks rp hist now d md st
    | none => validateTradeChecks rp hist now d md st
where
  /-- The non-bypass tail of `validateTrade`: the seven ordered checks. -/
  validateTradeChecks (rp : RiskParams) (hist : List TradeEntry) (now : ℤ)
      (d : TradingDecision) (md : MarketData) (st : AgentState) : ValidationResult :=
    if !st.isActive then
      { isValid := false, reason := some "Agent is not active" }
    else if isDailyLossExceeded rp st then
      { isValid := false, reason := some "Daily loss limit exceeded" }
    else if !isTradeAmountValid rp d md then
      { isValid := false, reason := some "Trade amount below minimum threshold" }
    else if !isPositionSizeValid rp d md then
      { isValid := false, reason := some "Trade would exceed maximum position size" }
    else if !hasSufficientBalance d md then
      { isValid := false, reason := some "Insufficient balance for trade" }
    else if !isTradeFrequencyValid rp hist now then
      { isValid := false, reason := some "Trade frequency limit exceeded" }
    else if isMaxDrawdownExceeded rp md then
      { isValid := false, reason := some "Maximum drawdown threshold reached" }
    else
      { isValid := true, reason := none }

/-- `calculateCurrentAllocations(portfolio)[addr] || 0`: the allocation
record is built by overwriting per token key, so a lookup sees the last
holding with that address; a missing key reads `0`. -/
def allocOf (p : Portfolio) (addr : String) : ℚ :=
  match (p.tokens.filter (fun t => t.token == addr)).getLast? with
  | some t => t.value / p.totalValue
  | none => 0

/-- The loop body sequence of `StrategyOrchestrator.checkRebalancing`
over `Object.entries(params.targetAllocations)`. -/
def rebalanceLoop (params : StrategyParams) (md : MarketData) :
    List (String × ℚ) → Option TradingDecision
  | [] => none
  | (tokenAddress, targetAllocation) :: rest =>
    let currentAllocation := allocOf md.portfolio tokenAddress
    let deviation := |currentAllocation - targetAllocation|
    if deviation > params.rebalanceThreshold then
      if currentAllocation > targetAllocation then
        let excessValue := (currentAllocation - targetAllocation) * md.portfolio.totalValue
        let sellAmount := excessValue / lookupPrice md.prices tokenAddress
        if sellAmount * lookupPrice md.prices tokenAddress ≥ params.minTradeAmount then
          some { action := Action.sell, fromToken := tokenAddress, toToken := USDC,
                 amount := sellAmount,
                 reason := "Rebalancing: token overweight", confidence := 8 / 10 }
        else
          rebalanceLoop params md rest
      else
        let deficitValue := (targetAllocation - currentAllocation) * md.portfolio.totalValue
        let usdcBalance := allocOf md.portfolio USDC * md.portfolio.totalValue
        if deficitValue ≥ params.minTradeAmount ∧ usdcBalance ≥ deficitValue then
          some { action := Action.buy, fromToken := USDC, toToken := tokenAddress,
                 amount := deficitValue,
                 reason := "Rebalancing: token underweight", confidence := 8 / 10 }
        else
          rebalanceLoop params md rest
    else
      rebalanceLoop params md rest

/-- `StrategyOrchestrator.checkRebalancing`. -/
def checkRebalancing (params : StrategyParams) (md : MarketData) : Option TradingDecision :=
  rebalanceLoop params md params.targetAllocations

/-- `StrategyOrchestrator.checkMomentumStrategy`. -/
def checkMomentumStrategy (params : StrategyParams) (md : MarketData) : Option TradingDecision :=
  match findToken md USDC with
  | none => none
  | some usdcToken =>
    let wethPrice := lookupPrice md.prices WETH
    if wethPrice = 0 then none
    else
      let usdcBalance := usdcToken.amount
      let usdcAllocation := usdcToken.value / md.portfolio.totalValue
      if usdcAllocation > 1 / 2 ∧ usdcBalance > params.minTradeAmount then
        let buyAmount := min (usdcBalance * (1 / 10))
          (md.portfolio.totalValue * params.maxPositionSize)
        if buyAmount ≥ params.minTradeAmount then
          some { action := Action.buy, fromToken := USDC, toToken := WETH,
                 amount := buyAmount,
                 reason := "Momentum strategy: High USDC allocation, buying WETH",
                 confidence := 6 / 10 }
        else none
      else none

/-- The loop body of `TrendFollowingStrategy.checkTrendFollowing` for a
single token: fetch the most recent `long` points, compute current and
previous short/long SMAs via the source's `slice` windows, then test
golden cross (buy) and death cross (sell). -/
def trendSignalForToken (db : Db) (params : StrategyParams) (md : MarketData)
    (tokenAddress : String) : Option TradingDecision :=
  let shortP := params.trendFollowingShortSmaPeriod
  let longP := params.trendFollowingLongSmaPeriod
  let historicalPrices := getMarketDataByToken db tokenAddress longP
  if historicalPrices.length < longP then none
  else
    let shortSMA := calculateSMA (sliceNeg historicalPrices shortP)
    let longSMA := calculateSMA (sliceNeg historicalPrices longP)
    let prevShortSMA := calculateSMA (slicePrev historicalPrices shortP)
    let prevLongSMA := calculateSMA (slicePrev historicalPrices longP)
    let currentPrice := lookupPrice md.prices tokenAddress
    if currentPrice = 0 then none
    else if prevShortSMA ≤ prevLongSMA ∧ shortSMA > longSMA then
      let usdcBalance := getTokenBalance md USDC
      if usdcBalance ≥ params.minTradeAmount then
        let buyAmount := min (usdcBalance * (25 / 100))
          (md.portfolio.totalValue * params.maxPositionSize)
        if buyAmount ≥ params.minTradeAmount then
          some { action := Action.buy, fromToken := USDC, toToken := tokenAddress,
                 amount := buyAmount,
                 reason := "Trend Following: Golden Cross detected",
                 confidence := 75 / 100 }
        else none
      else none
    else if prevShortSMA ≥ prevLongSMA ∧ shortSMA < longSMA then
      let tokenBalance := getTokenBalance md tokenAddress
      if tokenBalance > 0 then
        let sellAmountUSD := tokenBalance * currentPrice
        if sellAmountUSD ≥ params.minTradeAmount then
          let sellAmount := min (tokenBalance * (4 / 10)) tokenBalance
          some { action := Action.sell, fromToken := tokenAddress, toToken := USDC,
                 amount := sellAmount,
                 reason := "Trend Following: Death Cross detected",
                 confidence := 75 / 100 }
        else none
      else none
    else none

/-- First non-`none` element of a list of candidates. -/
def firstSome : List (Option α) → Option α
  | [] => none
  | some a :: _ => some a
  | none :: rest => firstSome rest

/-- `TrendFollowingStrategy.checkTrendFollowing`: iterate WETH then WBTC,
returning the first signal (the loop body `continue`s on every failure). -/
def checkTrendFollowing (db : Db) (params : StrategyParams) (md : MarketData) :
    Option TradingDecision :=
  firstSome ([WETH, WBTC].map (trendSignalForToken db params md))

/-- The loop body of `MeanReversionStrategy.checkMeanReversion` for a
single token. -/
def meanReversionSignalForToken (db : Db) (params : StrategyParams) (md : MarketData)
    (tokenAddress : String) : Option TradingDecision :=
  let lookback := params.meanReversionLookbackPeriod
  let historicalPrices := getMarketDataByToken db tokenAddress lookback
  if historicalPrices.length < lookback then none
  else
    let sma := calculateSMA historicalPrices
    let currentPrice := lookupPrice md.prices tokenAddress
    if currentPrice = 0 then none
    else
      let deviation := (currentPrice - sma) / sma
      let absDeviation := |deviation|
      if absDeviation > params.meanReversionDeviationThreshold then
        if deviation < -params.meanReversionDeviationThreshold then
          let usdcBalance := getTokenBalance md USDC
          if usdcBalance ≥ params.minTradeAmount then
            let buyAmount := min (usdcBalance * (2 / 10))
              (md.portfolio.totalValue * params.maxPositionSize)
            if buyAmount ≥ params.minTradeAmount then
              some { action := Action.buy, fromToken := USDC, toToken := tokenAddress,
                     amount := buyAmount,
                     reason := "Mean Reversion: price below SMA",
                     confidence := min (9 / 10) (5 / 10 + absDeviation * 2) }
            else none
          else none
        else if deviation > params.meanReversionDeviationThreshold then
          let tokenBalance := getTokenBalance md tokenAddress
          if tokenBalance > 0 then
            let sellAmountUSD := tokenBalance * currentPrice
            if sellAmountUSD ≥ params.minTradeAmount then
              let sellAmount := min (tokenBalance * (3 / 10)) tokenBalance
              some { action := Action.sell, fromToken := tokenAddress, toToken := USDC,
                     amount := sellAmount,
                     reason := "Mean Reversion: price above SMA",
                     confidence := min (9 / 10) (5 / 10 + absDeviation * 2) }
            else none
          else none
        else none
      else none

/-- `MeanReversionStrategy.checkMeanReversion`. -/
def checkMeanReversion (db : Db) (params : StrategyParams) (md : MarketData) :
    Option TradingDecision :=
  firstSome ([WETH, WBTC].map (meanReversionSignalForToken db params md))

/-- Arithmetic mean of the stored prices (the `mean` local of
`BreakoutStrategy.calculateVolatility`). -/
def priceMean (l : List MarketDataPoint) : ℚ :=
  (l.map (fun p => p.price)).sum / (l.length : ℚ)

/-- Population variance of the stored prices (the `variance` local of
`BreakoutStrategy.calculateVolatility`). -/
def priceVariance (l : List MarketDataPoint) : ℚ :=
  (l.map (fun p => (p.price - priceMean l) ^ 2)).sum / (l.length : ℚ)

/-- The consolidation test of `BreakoutStrategy.checkBreakout`:
`calculateVolatility(prices) < threshold` where the volatility is the
coefficient of variation `sqrt(variance) / mean`. Since the square root
is irrational we embed the decidable equivalent, split on the sign of
the mean (`sqrt v / m < t` iff `0 < t*m ∧ v < (t*m)^2` for `m > 0`, iff
`t*m < 0 ∨ (t*m)^2 < v` for `m < 0`, and is false for `m = 0`, matching
the JS `Infinity`/`NaN` comparisons); fewer than two points give
volatility `0` in the source. -/
def isConsolidating (prices : List MarketDataPoint) (t : ℚ) : Bool :=
  if prices.length < 2 then decide (0 < t)
  else
    let m := priceMean prices
    let v := priceVariance prices
    if m > 0 then decide (0 < t * m ∧ v < (t * m) ^ 2)
    else if m < 0 then decide (t * m < 0 ∨ (t * m) ^ 2 < v)
    else false

/-- JS `Math.max(...prices.map(p => p.price))`. Faithful on non-empty
lists; on the empty list the source's `Math.max()` is `-Infinity`, which
`ℚ` cannot represent, so `0` stands in. The empty case is reachable only
when `breakoutLookbackPeriod = 0` (the fetch limit makes the window
empty), where the source goes on to emit a buy with `NaN` confidence;
every theorem below that touches the breakout evaluator therefore
assumes a positive lookback, under which this function is only ever
applied to non-empty windows. -/
def pricesMax : List MarketDataPoint → ℚ
  | [] => 0
  | p :: rest => rest.foldl (fun a q => max a q.price) p.price

/-- JS `Math.min(...prices.map(p => p.price))`. Faithful on non-empty
lists; the empty case (source: `+Infinity`) is the same
`breakoutLookbackPeriod = 0` corner as for `pricesMax` and is excluded by
the positive-lookback hypothesis of the theorems below. -/
def pricesMin : List MarketDataPoint → ℚ
  | [] => 0
  | p :: rest => rest.foldl (fun a q => min a q.price) p.price

/-- The loop body of `BreakoutStrategy.checkBreakout` for a single token.
Faithful whenever `breakoutLookbackPeriod > 0`: the length guard then
forces a non-empty fetched window, so `recentPrices` is non-empty and the
range and breakout levels are the source's finite values. At lookback `0`
the source computes `∓Infinity` extremes and returns a `NaN`-confidence
buy, which `ℚ` cannot express (see `pricesMax`). -/
def breakoutSignalForToken (db : Db) (params : StrategyParams) (md : MarketData)
    (tokenAddress : String) : Option TradingDecision :=
  let lookback := params.breakoutLookbackPeriod
  let historicalPrices := getMarketDataByToken db tokenAddress lookback
  if historicalPrices.length < lookback then none
  else
    let currentPrice := lookupPrice md.prices tokenAddress
    if currentPrice = 0 then none
    else if !isConsolidating historicalPrices params.breakoutVolatilityThreshold then none
    else
      let recentPrices := sliceNeg historicalPrices (min 20 historicalPrices.length)
      let recentHigh := pricesMax recentPrices
      let recentLow := pricesMin recentPrices
      let rangeSize := recentHigh - recentLow
      let upBreakoutLevel := recentHigh + recentHigh * params.breakoutConfirmationFactor
      let downBreakoutLevel := recentLow - recentLow * params.breakoutConfirmationFactor
      if currentPrice > upBreakoutLevel then
        let usdcBalance := getTokenBalance md USDC
        if usdcBalance ≥ params.minTradeAmount then
          let buyAmount := min (usdcBalance * (3 / 10))
            (md.portfolio.totalValue * params.maxPositionSize)
          if buyAmount ≥ params.minTradeAmount then
            let breakoutStrength := (currentPrice - upBreakoutLevel) / rangeSize
            some { action := Action.buy, fromToken := USDC, toToken := tokenAddress,
                   amount := buyAmount,
                   reason := "Breakout: price broke above the consolidation range",
                   confidence := min (9 / 10) (7 / 10 + breakoutStrength * 2) }
          else none
        else none
      else if currentPrice < downBreakoutLevel then
        let tokenBalance := getTokenBalance md tokenAddress
        if tokenBalance > 0 then
          let sellAmountUSD := tokenBalance * currentPrice
          if sellAmountUSD ≥ params.minTradeAmount then
            let sellAmount := min (tokenBalance * (1 / 2)) tokenBalance
            let breakoutStrength := (downBreakoutLevel - currentPrice) / rangeSize
            some { action := Action.sell, fromToken := tokenAddress, toToken := USDC,
                   amount := sellAmount,
                   reason := "Breakout: price broke below the consolidation range",
                   confidence := min (9 / 10) (7 / 10 + breakoutStrength * 2) }
          else none
        else none
      else none

/-- `BreakoutStrategy.checkBreakout`. -/
def checkBreakout (db : Db) (params : StrategyParams) (md : MarketData) :
    Option TradingDecision :=
  firstSome ([WETH, WBTC].map (breakoutSignalForToken db params md))

/-- The mutable fields of `ArbitrageStrategy`: last direction (initially
`sell`) and the trade counter. -/
structure ArbState where
  lastTradeDirection : Action
  tradeCounter : ℕ
deriving Repr, DecidableEq

/-- The initial `ArbitrageStrategy` state. -/
def initialArbState : ArbState := { lastTradeDirection := Action.sell, tradeCounter := 0 }

/-- The WBTC-fallback and last-resort sections of
`ArbitrageStrategy.checkArbitrage`, reached when the primary WETH/USDC
direction cannot produce a trade. `c` is the already-incremented counter. -/
def arbFallback (st : ArbState) (md : MarketData) (c : ℕ) (shouldBuy : Bool)
    (tradeAmount : ℚ) : Option TradingDecision × ArbState :=
  let wbtcBalance := getTokenBalance md WBTC
  let wbtcPrice := lookupPrice md.prices WBTC
  let usdcBalance := getTokenBalance md USDC
  if shouldBuy && decide (usdcBalance ≥ tradeAmount) && decide (wbtcPrice > 0) then
    (some { action := Action.buy, fromToken := USDC, toToken := WBTC,
            amount := tradeAmount,
            reason := "Arbitrage Swap: Fallback guaranteed trade - buying WBTC",
            confidence := 1 / 10 },
     { lastTradeDirection := Action.buy, tradeCounter := c })
  else if !shouldBuy && decide (wbtcBalance > 0) && decide (wbtcPrice > 0) then
    let wbtcValueUSD := wbtcBalance * wbtcPrice
    if wbtcValueUSD ≥ tradeAmount then
      (some { action := Action.sell, fromToken := WBTC, toToken := USDC,
              amount := tradeAmount / wbtcPrice,
              reason := "Arbitrage Swap: Fallback guaranteed trade - selling WBTC",
              confidence := 1 / 10 },
       { lastTradeDirection := Action.sell, tradeCounter := c })
    else arbLastResort st md c tradeAmount
  else arbLastResort st md c tradeAmount
where
  /-- The emergency section: sell any non-USDC holding worth at least the
  trade amount, picked at index `counter % length`. -/
  arbLastResort (st : ArbState) (md : MarketData) (c : ℕ) (tradeAmount : ℚ) :
      Option TradingDecision × ArbState :=
    let availableTokens := md.portfolio.tokens.filter (fun t =>
      decide (t.amount > 0) && decide (t.value ≥ tradeAmount) && (t.token != USDC))
    match availableTokens.get? (c % availableTokens.length) with
    | none => (none, { lastTradeDirection := st.lastTradeDirection, tradeCounter := c })
    | some randomToken =>
      let tokenPrice := lookupPrice md.prices randomToken.token
      if tokenPrice > 0 then
        (some { action := Action.sell, fromToken := randomToken.token, toToken := USDC,
                amount := tradeAmount / tokenPrice,
                reason := "Arbitrage Swap: Emergency guaranteed trade",
                confidence := 5 / 100 },
         { lastTradeDirection := Action.sell, tradeCounter := c })
      else (none, { lastTradeDirection := st.lastTradeDirection, tradeCounter := c })

/-- `ArbitrageStrategy.checkArbitrage`: the guaranteed-rotation fallback.
The counter is incremented on entry; the direction alternates off
`lastTradeDirection`; the notional cycles through 10 + (counter mod 5) * 8
dollars; state mutations occur exactly where the source assigns them. -/
def checkArbitrage (st : ArbState) (md : MarketData) : Option TradingDecision × ArbState :=
  let c := st.tradeCounter + 1
  let shouldBuy := st.lastTradeDirection == Action.sell
  let tradeAmount : ℚ := 10 + ((c % 5 : ℕ) : ℚ) * 8
  if shouldBuy then
    let usdcBalance := getTokenBalance md USDC
    let wethPrice := lookupPrice md.prices WETH
    if usdcBalance ≥ tradeAmount ∧ wethPrice > 0 then
      (some { action := Action.buy, fromToken := USDC, toToken := WETH,
              amount := tradeAmount,
              reason := "Arbitrage Swap: Guaranteed trade - buying WETH",
              confidence := 1 / 10 },
       { lastTradeDirection := Action.buy, tradeCounter := c })
    else arbFallback st md c shouldBuy tradeAmount
  else
    let wethBalance := getTokenBalance md WETH
    let wethPrice := lookupPrice md.prices WETH
    if wethBalance > 0 ∧ wethPrice > 0 then
      let wethValueUSD := wethBalance * wethPrice
      if wethValueUSD ≥ tradeAmount then
        (some { action := Action.sell, fromToken := WETH, toToken := USDC,
                amount := tradeAmount / wethPrice,
                reason := "Arbitrage Swap: Guaranteed trade - selling WETH",
                confidence := 1 / 10 },
         { lastTradeDirection := Action.sell, tradeCounter := c })
      else arbFallback st md c shouldBuy tradeAmount
    else arbFallback st md c shouldBuy tradeAmount

/-- A token candidate returned by the external CoinGecko discovery
collaborator; only the fields the decision logic branches on are kept
(the numeric fields feed log and reason strings only). -/
structure TokenCandidate where
  contractAddress : String
  symbol : String
deriving Repr, DecidableEq

/-- `LossStrategy.getCurrentAllocation`: case-insensitive address match. -/
def getCurrentAllocation (md : MarketData) (tokenAddress : String) : ℚ :=
  match md.portfolio.tokens.find? (fun t => t.token.toLower == tokenAddress.toLower) with
  | none => 0
  | some t => t.value / md.portfolio.totalValue

/-- `LossStrategy.createLossDecision` (the WETH fallback path). -/
def createLossDecision (params : StrategyParams) (md : MarketData)
    (tokenAddress : String) : Option TradingDecision :=
  let usdcBalance := getTokenBalance md USDC
  let currentAllocation := getCurrentAllocation md tokenAddress
  let targetAllocation := params.lossStrategyTargetAllocation
  if currentAllocation < targetAllocation then
    let deficitValue := (targetAllocation - currentAllocation) * md.portfolio.totalValue
    let buyAmount := min deficitValue (usdcBalance * (9 / 10))
    if buyAmount ≥ 10 ∧ usdcBalance ≥ buyAmount then
      some { action := Action.buy, fromToken := USDC, toToken := tokenAddress,
             amount := buyAmount,
             reason := "LOSS STRATEGY FALLBACK: converting USDC to WETH",
             confidence := 9 / 10 }
    else none
  else none

/-- `LossStrategy.checkLossStrategy`; `lossToken` is the external
CoinGecko collaborator's answer (`null` both when discovery finds no
candidate and when it errors, both of which fall back to WETH). -/
def checkLossStrategy (params : StrategyParams) (md : MarketData)
    (lossToken : Option TokenCandidate) : Option TradingDecision :=
  if !params.lossStrategyEnabled then none
  else
    match lossToken with
    | none => createLossDecision params md WETH
    | some best =>
      let currentAllocation := getCurrentAllocation md best.contractAddress
      let targetAllocation := params.lossStrategyTargetAllocation
      if currentAllocation < targetAllocation then
        let deficitValue := (targetAllocation - currentAllocation) * md.portfolio.totalValue
        let usdcBalance := getTokenBalance md USDC
        let buyAmount := min deficitValue (usdcBalance * (9 / 10))
        if buyAmount ≥ 10 ∧ usdcBalance ≥ buyAmount then
          some { action := Action.buy, fromToken := USDC, toToken := best.contractAddress,
                 amount := buyAmount,
                 reason := "LOSS STRATEGY: converting USDC to the losing token",
                 confidence := 95 / 100 }
        else none
      else none

/-- JS `array.reduce((max, token) => token.value > max.value ? token : max)`. -/
def maxByValue (t : Token) : List Token → Token
  | [] => t
  | u :: rest => maxByValue (if u.value > t.value then u else t) rest

/-- JS `s.includes(pat)` via `splitOn`: the pattern occurs iff splitting
on it produces more than one piece. -/
def strContains (s pat : String) : Bool :=
  (s.splitOn pat).length != 1

/-- `GuaranteedMemeStrategy.makeGuaranteedMemeDecision`; `memeToken` is
the external Solana meme-token discovery collaborator's answer. -/
def makeGuaranteedMemeDecision (params : StrategyParams) (md : MarketData)
    (memeToken : Option TokenCandidate) : Option TradingDecision :=
  if !params.guaranteedMemeTradeEnabled then none
  else
    let usdcBalance := getTokenBalance md USDC
    let tradeAmountUSD := params.guaranteedMemeTradeAmountUSD
    match memeToken with
    | none => none
    | some best =>
      if usdcBalance ≥ tradeAmountUSD then
        some { action := Action.buy, fromToken := USDC, toToken := best.contractAddress,
               amount := tradeAmountUSD,
               reason := "GUARANTEED MEME: accumulating meme token",
               confidence := 1 / 100, isGuaranteedMemeTrade := true }
      else
        let availableTokens := md.portfolio.tokens.filter (fun t =>
          decide (t.amount > 0) && decide (t.value ≥ tradeAmountUSD) &&
          (t.token != USDC) &&
          !strContains t.token "Sol11111111111111111111111111111111111111112")
        match availableTokens with
        | [] => none
        | t0 :: rest =>
          let tokenToSell := maxByValue t0 rest
          let sellAmountUSD := min (tradeAmountUSD * (11 / 10)) (tokenToSell.value * (1 / 10))
          let sellAmount := sellAmountUSD / tokenToSell.price
          some { action := Action.sell, fromToken := tokenToSell.token, toToken := USDC,
                 amount := sellAmount,
                 reason := "GUARANTEED MEME PREP: selling a holding to fund the meme purchase",
                 confidence := 1 / 100, isGuaranteedMemeTrade := true }

/-- Insertion-ordered deduplication, as JS `new Set([...])` iteration. -/
def dedupKeepFirst : List String → List String
  | [] => []
  | x :: rest => x :: dedupKeepFirst (rest.filter (fun y => y != x))
termination_by l => l.length
decreasing_by
  simp only [List.length_cons]
  exact Nat.lt_succ_of_le (List.length_filter_le _ _)

/-- `StrategyOrchestrator.saveCurrentMarketData`: persist the snapshot's
price of every standard token and portfolio token (truthy prices only)
under the snapshot timestamp. -/
def saveCurrentMarketData (md : MarketData) (db : Db) : Db :=
  let allTokens := dedupKeepFirst
    (tokensValues ++ md.portfolio.tokens.map (fun t => t.token))
  allTokens.foldl (fun acc tokenAddress =>
    let price := lookupPrice md.prices tokenAddress
    if price ≠ 0 then saveMarketData acc md.timestamp tokenAddress price else acc) db

/-- The signal cascade of `StrategyOrchestrator.makeDecision` (steps after
the advisory and loss-seeking preemptions): strict priority order
Rebalancer, Trend-Following, Breakout, Mean-Reversion, Momentum,
guaranteed rotation (arbitrage), guaranteed discovery (meme), each
short-circuiting on the first non-null result. -/
def runStrategyCascade (params : StrategyParams) (md : MarketData) (db : Db)
    (arbSt : ArbState) (memeToken : Option TokenCandidate) :
    Option TradingDecision × ArbState :=
  match checkRebalancing params md with
  | some d => (some d, arbSt)
  | none =>
  match checkTrendFollowing db params md with
  | some d => (some d, arbSt)
  | none =>
  match checkBreakout db params md with
  | some d => (some d, arbSt)
  | none =>
  match checkMeanReversion db params md with
  | some d => (some d, arbSt)
  | none =>
  match checkMomentumStrategy params md with
  | some d => (some d, arbSt)
  | none =>
  match checkArbitrage arbSt md with
  | (some d, arbSt2) => (some d, arbSt2)
  | (none, arbSt2) =>
  match makeGuaranteedMemeDecision params md memeToken with
  | some d => (some d, arbSt2)
  | none => (none, arbSt2)

/-- The outcome of one `makeDecision` cycle: the returned instruction,
the market-data store and the rotation-fallback state afterwards. -/
structure OrchestratorOutcome where
  decision : Option TradingDecision
  db : Db
  arb : ArbState

/-- The part of `StrategyOrchestrator.makeDecision` after the advisory
(LLM) block: persist the snapshot's prices, then run the loss-seeking
preemption (only when the advisory mode is off) and the cascade, all of
which read the just-updated store. -/
def decideAfterAdvisory (params : StrategyParams) (md : MarketData) (db : Db)
    (arbSt : ArbState) (lossToken memeToken : Option TokenCandidate) :
    OrchestratorOutcome :=
  let db2 := saveCurrentMarketData md db
  if params.lossStrategyEnabled && !params.llmEnabled then
    match checkLossStrategy params md lossToken with
    | some d => { decision := some d, db := db2, arb := arbSt }
    | none =>
      let r := runStrategyCascade params md db2 arbSt memeToken
      { decision := r.1, db := db2, arb := r.2 }
  else
    let r := runStrategyCascade params md db2 arbSt memeToken
    { decision := r.1, db := db2, arb := r.2 }

/-- `StrategyOrchestrator.makeDecision`. `llmResponse` is the advisory
collaborator's answer, returned verbatim when the advisory mode is
enabled and it is non-null; note the source reaches
`saveCurrentMarketData` only after that block. -/
def makeDecision (params : StrategyParams) (md : MarketData) (db : Db)
    (arbSt : ArbState) (llmResponse : Option TradingDecision)
    (lossToken memeToken : Option TokenCandidate) : OrchestratorOutcome :=
  if params.llmEnabled then
    match llmResponse with
    | some d => { decision := some d, db := db, arb := arbSt }
    | none => decideAfterAdvisory params md db arbSt lossToken memeToken
  else decideAfterAdvisory params md db arbSt lossToken memeToken

/-- An early-exit runner over thunked evaluators, counting how many were
invoked: iteration stops at the first non-null result, as the
orchestrator's if-chain does. -/
def runThunks : List (Unit → Option α) → Option α × ℕ
  | [] => (none, 0)
  | f :: fs =>
    match f () with
    | some a => (some a, 1)
    | none =>
      let r := runThunks fs
      (r.1, r.2 + 1)

/-- The seven cascade candidates in the orchestrator's strict priority
order: Rebalancer, Trend-Following, Breakout, Mean-Reversion, Momentum,
guaranteed rotation, guaranteed discovery. -/
def cascadeCandidates (params : StrategyParams) (md : MarketData) (db : Db)
    (arbSt : ArbState) (memeToken : Option TokenCandidate) : List (Option TradingDecision) :=
  [checkRebalancing params md,
   checkTrendFollowing db params md,
   checkBreakout db params md,
   checkMeanReversion db params md,
   checkMomentumStrategy params md,
   (checkArbitrage arbSt md).1,
   makeGuaranteedMemeDecision params md memeToken]

/-- The same seven evaluators as thunks, for invocation counting. -/
def cascadeThunks (params : StrategyParams) (md : MarketData) (db : Db)
    (arbSt : ArbState) (memeToken : Option TokenCandidate) :
    List (Unit → Option TradingDecision) :=
  [fun _ => checkRebalancing params md,
   fun _ => checkTrendFollowing db params md,
   fun _ => checkBreakout db params md,
   fun _ => checkMeanReversion db params md,
   fun _ => checkMomentumStrategy params md,
   fun _ => (checkArbitrage arbSt md).1,
   fun _ => makeGuaranteedMemeDecision params md memeToken]

/-- Snapshot consistency as the spec's data model describes it: holding
amounts and prices are non-negative with `value = amount * price`, and
price-map entries are non-negative. -/
def snapshotOK (md : MarketData) : Prop :=
  (∀ t ∈ md.portfolio.tokens, 0 ≤ t.amount ∧ 0 ≤ t.price ∧ t.value = t.amount * t.price) ∧
  (∀ p ∈ md.prices, 0 ≤ p.2)

/-- A well-formed instruction: action buy or sell, positive amount,
confidence in the unit interval. -/
def wellFormedDecision (d : TradingDecision) : Prop :=
  (d.action = Action.buy ∨ d.action = Action.sell) ∧ 0 < d.amount ∧
  0 ≤ d.confidence ∧ d.confidence ≤ 1

/-! ## Concrete scenarios used by the claims -/

/-- An empty market-data store. -/
def emptyDb : Db := fun _ => []

/-- Parameters of end-to-end scenario 1: the default target allocations
with a rebalance threshold of 0.05. -/
def scenario1Params : StrategyParams := { getDefaultParams with rebalanceThreshold := 5 / 100 }

/-- The snapshot of end-to-end scenario 1: total 10000, current
allocations USDC 0.2, WETH 0.35, WBTC 0.45. -/
def scenario1Md : MarketData :=
  { portfolio :=
      { totalValue := 10000
        tokens :=
          [ { token := USDC, amount := 2000, price := 1, value := 2000,
              chain := "evm", symbol := "USDC" },
            { token := WETH, amount := 35, price := 100, value := 3500,
              chain := "evm", symbol := "WETH" },
            { token := WBTC, amount := 45, price := 100, value := 4500,
              chain := "evm", symbol := "WBTC" } ] }
    prices := [(USDC, 1), (WETH, 100), (WBTC, 100)]
    timestamp := "t0" }

/-- The decision the code actually produces in scenario 1: a buy whose
source and destination are both the stable instrument. -/
def scenario1Buy : TradingDecision where
  action := Action.buy
  fromToken := USDC
  toToken := USDC
  amount := 2000
  reason := "Rebalancing: token underweight"
  confidence := 8 / 10

/-- A snapshot in which USDC itself is underweight (allocation 0.25
against the default target 0.4) with enough stable balance to fund its
own deficit. -/
def underweightStableMd : MarketData :=
  { portfolio :=
      { totalValue := 40000
        tokens :=
          [ { token := USDC, amount := 10000, price := 1, value := 10000,
              chain := "evm", symbol := "USDC" },
            { token := WETH, amount := 300, price := 100, value := 30000,
              chain := "evm", symbol := "WETH" } ] }
    prices := [(USDC, 1), (WETH, 100)]
    timestamp := "t0" }

/-- Risk parameters used by the Risk Gate scenarios (the source defaults
of the plain `RiskManager` constructor). -/
def gateRiskParams : RiskParams where
  maxDailyLoss := 5 / 100
  maxPositionSize := 1 / 2
  minTradeAmount := 10
  maxTradesPerHour := 10
  stopLossThreshold := 2 / 100
  maxDrawdown := 15 / 100

/-- The snapshot for the Risk Gate scenarios: USDC balance exactly 100,
total value at the drawdown reference 10000. -/
def gateMd : MarketData :=
  { portfolio :=
      { totalValue := 10000
        tokens :=
          [ { token := USDC, amount := 100, price := 1, value := 100,
              chain := "evm", symbol := "USDC" },
            { token := WETH, amount := 99, price := 100, value := 9900,
              chain := "evm", symbol := "WETH" } ] }
    prices := [(USDC, 1), (WETH, 100)]
    timestamp := "t0" }

/-- An active agent with zero PnL. -/
def gateState : AgentState where
  totalTrades := 0
  totalPnL := 0
  dailyPnL := 0
  isActive := true

/-- A buy instruction funded from the USDC balance of `gateMd`, with
amount `100 × (1 + 1/100) − 1/100`, i.e. the balance times one-plus-buffer
minus a small epsilon. -/
def gateBuyNearLimit : TradingDecision where
  action := Action.buy
  fromToken := USDC
  toToken := DAI
  amount := 10099 / 100
  reason := "test trade"
  confidence := 1 / 2

/-- The same buy at an amount the balance covers with the 1% buffer. -/
def gateBuySmall : TradingDecision := { gateBuyNearLimit with amount := 99 }

/-- A static snapshot with no USDC at all and a large WETH holding. -/
def wethOnlyMd : MarketData :=
  { portfolio :=
      { totalValue := 100000
        tokens :=
          [ { token := WETH, amount := 1000, price := 100, value := 100000,
              chain := "evm", symbol := "WETH" } ] }
    prices := [(WETH, 100)]
    timestamp := "t0" }

/-- Trend-following parameters with short window 1 and long window 3. -/
def trendParams13 : StrategyParams :=
  { getDefaultParams with
      trendFollowingShortSmaPeriod := 1
      trendFollowingLongSmaPeriod := 3 }

/-- A store holding four WETH points (prices 10, 1, 2, 3 oldest-first)
and nothing else. -/
def trendDb4 : Db := fun t =>
  if t == WETH then
    [⟨"t1", 10⟩, ⟨"t2", 1⟩, ⟨"t3", 2⟩, ⟨"t4", 3⟩]
  else []

/-- The snapshot paired with `trendDb4`: WETH trades at 3 and the USDC
balance comfortably clears every sizing gate. -/
def trendMd : MarketData :=
  { portfolio :=
      { totalValue := 1090
        tokens :=
          [ { token := USDC, amount := 1000, price := 1, value := 1000,
              chain := "evm", symbol := "USDC" },
            { token := WETH, amount := 30, price := 3, value := 90,
              chain := "evm", symbol := "WETH" } ] }
    prices := [(USDC, 1), (WETH, 3)]
    timestamp := "t5" }

/-- The window the spec attributes to the previous-cycle SMAs: the `n`
points immediately preceding the newest one (this is a spec-side
definition, used to compare the spec's wording with the code). -/
def specPrevWindow (l : List MarketDataPoint) (n : ℕ) : List MarketDataPoint :=
  takeLast l.dropLast n

/-- Parameters with the advisory (LLM) mode enabled. -/
def advisoryParams : StrategyParams := { getDefaultParams with llmEnabled := true }

/-- An ill-formed decision as an advisory collaborator could return it:
action `hold`, negative amount, confidence above 1. -/
def badAdvisoryDecision : TradingDecision where
  action := Action.hold
  fromToken := USDC
  toToken := USDC
  amount := -5
  reason := "advisory output"
  confidence := 2

/-- The USDC holding of `gateMd`, for witness statements. -/
def gateUsdcToken : Token where
  token := USDC
  amount := 100
  price := 1
  value := 100
  chain := "evm"
  symbol := "USDC"

/-- Ten recorded trades at epoch millisecond 0. -/
def gateHist10 : List TradeEntry :=
  [⟨0, 5⟩, ⟨0, 5⟩, ⟨0, 5⟩, ⟨0, 5⟩, ⟨0, 5⟩, ⟨0, 5⟩, ⟨0, 5⟩, ⟨0, 5⟩, ⟨0, 5⟩, ⟨0, 5⟩]

/-! ## C2, C10: the Rebalancer on the scenario-1 allocations -/

/-- C2, counterexample: in end-to-end scenario 1 (target
{STABLE 0.4, A 0.35, B 0.25}, current {0.2, 0.35, 0.45}, threshold 0.05)
the Rebalancer does not emit a sell of B: USDC is enumerated first and is
itself underweight by 0.20, so the code emits a buy from USDC to USDC. -/
theorem rebalance_scenario1_no_sell_of_B :
    checkRebalancing scenario1Params scenario1Md = some scenario1Buy ∧
    scenario1Buy.action ≠ Action.sell ∧ scenario1Buy.fromToken ≠ WBTC := by
  refine ⟨?_, by decide, by decide⟩
  simp [checkRebalancing, rebalanceLoop, allocOf, lookupPrice, scenario1Params, scenario1Md,
    scenario1Buy, getDefaultParams, USDC, WETH, WBTC, abs_of_nonneg, abs_of_nonpos]
  norm_num [abs_of_nonneg]

/-- C2, amended: in end-to-end scenario 1 the decision cycle emits a buy
instruction whose source and destination are both the stable instrument
(USDC), with amount equal to the stable deficit 0.2 × total = 2000; it
never reaches the overweight instrument B. -/
theorem rebalance_scenario1_buys_stable_deficit :
    (makeDecision scenario1Params scenario1Md emptyDb initialArbState
      none none none).decision = some scenario1Buy ∧
    scenario1Buy.amount = (4 / 10 - 2 / 10) * scenario1Md.portfolio.totalValue := by
  constructor
  · have h : checkRebalancing scenario1Params scenario1Md = some scenario1Buy := by
      simp [checkRebalancing, rebalanceLoop, allocOf, lookupPrice, scenario1Params, scenario1Md,
        scenario1Buy, getDefaultParams, USDC, WETH, WBTC, abs_of_nonneg, abs_of_nonpos]
      norm_num [abs_of_nonneg]
    have hllm : scenario1Params.llmEnabled = false := rfl
    have hloss : scenario1Params.lossStrategyEnabled = false := rfl
    simp [makeDecision, decideAfterAdvisory, runStrategyCascade, hllm, hloss, h]
  · simp [scenario1Buy, scenario1Md]
    norm_num

/-- C10: there is a snapshot (stable instrument underweight beyond the
threshold, enumerated first in the target map) on which the Rebalancer
returns a buy whose source and destination are both USDC, with amount
equal to the stable instrument's deficit value 0.15 × 40000 = 6000. -/
theorem rebalancer_emits_stable_self_trade :
    ∃ d, checkRebalancing getDefaultParams underweightStableMd = some d ∧
      d.action = Action.buy ∧ d.fromToken = USDC ∧ d.toToken = USDC ∧
      d.amount = (4 / 10 - 1 / 4) * underweightStableMd.portfolio.totalValue := by
  refine ⟨{ action := Action.buy, fromToken := USDC, toToken := USDC, amount := 6000,
            reason := "Rebalancing: token underweight", confidence := 8 / 10 }, ?_, ?_⟩
  · simp [checkRebalancing, rebalanceLoop, allocOf, lookupPrice, underweightStableMd,
      getDefaultParams, USDC, WETH, WBTC, abs_of_nonneg, abs_of_nonpos]
    norm_num [abs_of_nonneg]
  · refine ⟨rfl, rfl, rfl, ?_⟩
    simp [underweightStableMd]
    norm_num

/-! ## C3: the balance buffer direction -/

/-- C3, counterexample: with a source balance of exactly 100 and every
other check passing, an instruction whose amount is
`balance × (1 + buffer) − ε` (here `100 × 1.01 − 0.01 = 100.99`) is
rejected for insufficient balance, because the code requires
`balance ≥ amount × (1 + buffer)`, not `amount ≤ balance × (1 + buffer)`. -/
theorem riskGate_rejects_just_below_buffer_limit :
    validateTrade none gateRiskParams [] 0 gateBuyNearLimit gateMd gateState =
      { isValid := false, reason := some "Insufficient balance for trade" } ∧
    gateBuyNearLimit.amount = 100 * (1 + 1 / 100) - 1 / 100 ∧
    getTokenBalance gateMd gateBuyNearLimit.fromToken = 100 := by
  refine ⟨?_, by norm_num [gateBuyNearLimit], ?_⟩
  · simp [validateTrade, validateTrade.validateTradeChecks, isDailyLossExceeded,
      isTradeAmountValid, isPositionSizeValid, hasSufficientBalance, isTradeFrequencyValid,
      isMaxDrawdownExceeded, pruneHistory, findToken, lookupPrice, gateRiskParams,
      gateBuyNearLimit, gateMd, gateState, USDC, WETH, DAI]
    norm_num
  · simp [getTokenBalance, findToken, gateMd, gateBuyNearLimit, USDC]

/-! ## C4: persistence versus the advisory step -/

/-- C4, counterexample: on an advisory-delegated cycle whose collaborator
returns a decision, the orchestrator returns it verbatim without
persisting the snapshot's prices (the store is unchanged), even though
persisting would have written the USDC price. -/
theorem advisory_cycle_returns_without_persisting :
    (makeDecision advisoryParams scenario1Md emptyDb initialArbState
       (some badAdvisoryDecision) none none).decision = some badAdvisoryDecision ∧
    (makeDecision advisoryParams scenario1Md emptyDb initialArbState
       (some badAdvisoryDecision) none none).db USDC = emptyDb USDC ∧
    saveCurrentMarketData scenario1Md emptyDb USDC ≠ emptyDb USDC := by
  have hllm : advisoryParams.llmEnabled = true := rfl
  refine ⟨by simp [makeDecision, hllm], by simp [makeDecision, hllm], ?_⟩
  simp [saveCurrentMarketData, dedupKeepFirst, tokensValues, saveMarketData, lookupPrice,
    emptyDb, scenario1Md, USDC, WETH, WBTC, DAI, USDT]

/-! ## C8: the rotation fallback under static balances -/

/-- C8, counterexample: called twice on the same static snapshot (no
USDC, one large WETH holding), the guaranteed-rotation fallback produces
two consecutive sell instructions — the direction does not alternate,
because the emergency path always records a sell. -/
theorem rotation_fallback_sells_twice :
    ∃ d1 d2,
      (checkArbitrage initialArbState wethOnlyMd).1 = some d1 ∧
      (checkArbitrage (checkArbitrage initialArbState wethOnlyMd).2 wethOnlyMd).1 = some d2 ∧
      d1.action = Action.sell ∧ d2.action = Action.sell := by
  have h1 : checkArbitrage initialArbState wethOnlyMd =
      (some { action := Action.sell, fromToken := WETH, toToken := USDC, amount := 9 / 50,
              reason := "Arbitrage Swap: Emergency guaranteed trade", confidence := 5 / 100 },
       { lastTradeDirection := Action.sell, tradeCounter := 1 }) := by
    simp [checkArbitrage, arbFallback, arbFallback.arbLastResort, getTokenBalance, findToken,
      lookupPrice, wethOnlyMd, initialArbState, USDC, WETH, WBTC, List.filter_cons,
      List.filter_nil]
    norm_num
  have h2 : checkArbitrage { lastTradeDirection := Action.sell, tradeCounter := 1 }
        wethOnlyMd =
      (some { action := Action.sell, fromToken := WETH, toToken := USDC, amount := 13 / 50,
              reason := "Arbitrage Swap: Emergency guaranteed trade", confidence := 5 / 100 },
       { lastTradeDirection := Action.sell, tradeCounter := 2 }) := by
    simp [checkArbitrage, arbFallback, arbFallback.arbLastResort, getTokenBalance, findToken,
      lookupPrice, wethOnlyMd, USDC, WETH, WBTC, List.filter_cons, List.filter_nil]
    norm_num
  exact ⟨_, _, by rw [h1], by rw [h1]; rw [h2], rfl, rfl⟩

/-! ## C7: the trend-following SMA windows -/

/-- C7, counterexample: with short window 1, long window 3 and a stored
WETH series 10, 1, 2, 3, the spec's windows (previous SMAs over the
respective window length of points immediately preceding the newest)
exhibit a golden cross and every sizing gate passes, yet the evaluator
signals nothing: the code fetches only `long` points, so its previous
long SMA is an average of `long − 1` points, which differs. -/
theorem trend_spec_windows_refuted :
    checkTrendFollowing trendDb4 trendParams13 trendMd = none ∧
    calculateSMA (specPrevWindow (trendDb4 WETH) 1) ≤
      calculateSMA (specPrevWindow (trendDb4 WETH) 3) ∧
    calculateSMA (takeLast (trendDb4 WETH) 1) > calculateSMA (takeLast (trendDb4 WETH) 3) ∧
    (trendDb4 WETH).length ≥ trendParams13.trendFollowingLongSmaPeriod ∧
    getTokenBalance trendMd USDC ≥ trendParams13.minTradeAmount ∧
    min (getTokenBalance trendMd USDC * (25 / 100))
      (trendMd.portfolio.totalValue * trendParams13.maxPositionSize) ≥
      trendParams13.minTradeAmount := by
  have hW : trendSignalForToken trendDb4 trendParams13 trendMd WETH = none := by
    simp [trendSignalForToken, getMarketDataByToken, takeLast, sliceNeg, slicePrev,
      calculateSMA, lookupPrice, getTokenBalance, findToken, trendDb4, trendParams13, trendMd,
      getDefaultParams, USDC, WETH]
    norm_num
  have hB : trendSignalForToken trendDb4 trendParams13 trendMd WBTC = none := by
    simp [trendSignalForToken, getMarketDataByToken, takeLast, sliceNeg, slicePrev,
      calculateSMA, lookupPrice, getTokenBalance, findToken, trendDb4, trendParams13, trendMd,
      getDefaultParams, WETH, WBTC]
  refine ⟨by simp [checkTrendFollowing, firstSome, hW, hB], ?_, ?_, ?_, ?_, ?_⟩
  · simp [specPrevWindow, takeLast, calculateSMA, trendDb4, WETH]
    norm_num
  · simp [takeLast, calculateSMA, trendDb4, WETH]
    norm_num
  · simp [trendDb4, trendParams13, WETH]
  · simp [getTokenBalance, findToken, trendMd, trendParams13, getDefaultParams, USDC]
    norm_num
  · simp [getTokenBalance, findToken, trendMd, trendParams13, getDefaultParams, USDC]
    norm_num

/-! ## C9: well-formedness of returned instructions -/

/-- C9, counterexample: on an advisory-delegated cycle the collaborator's
decision is returned verbatim, so the orchestrator can return an
instruction whose action is `hold`, whose amount is negative and whose
confidence exceeds 1. -/
theorem advisory_verbatim_can_be_illformed :
    (makeDecision advisoryParams scenario1Md emptyDb initialArbState
       (some badAdvisoryDecision) none none).decision = some badAdvisoryDecision ∧
    badAdvisoryDecision.action = Action.hold ∧
    badAdvisoryDecision.amount < 0 ∧ badAdvisoryDecision.confidence > 1 := by
  have hllm : advisoryParams.llmEnabled = true := rfl
  refine ⟨by simp [makeDecision, hllm], rfl, ?_, ?_⟩ <;> norm_num [badAdvisoryDecision]

/-! ## C1: the Risk Gate always returns a structured result -/

/-- Any result of the minimal bypass checks is structured: either an
acceptance without a reason, or a rejection with a non-empty reason. -/
theorem minimalChecks_structured (d : TradingDecision) (md : MarketData) :
    ((performMinimalRiskChecks d md).isValid = true ∧
      (performMinimalRiskChecks d md).reason = none) ∨
    ((performMinimalRiskChecks d md).isValid = false ∧
      ∃ s, (performMinimalRiskChecks d md).reason = some s ∧ s ≠ "") := by
  unfold performMinimalRiskChecks
  split <;> simp

/-- Any result of the non-bypass check sequence is structured. -/
theorem checksPart_structured (rp : RiskParams) (hist : List TradeEntry) (now : ℤ)
    (d : TradingDecision) (md : MarketData) (st : AgentState) :
    ((validateTrade.validateTradeChecks rp hist now d md st).isValid = true ∧
      (validateTrade.validateTradeChecks rp hist now d md st).reason = none) ∨
    ((validateTrade.validateTradeChecks rp hist now d md st).isValid = false ∧
      ∃ s, (validateTrade.validateTradeChecks rp hist now d md st).reason = some s ∧ s ≠ "") := by
  unfold validateTrade.validateTradeChecks
  repeat' split
  all_goals simp

/-- C1: for every candidate instruction, snapshot and agent state the
Risk Gate's validate operation is total and returns either an acceptance
(no reason) or a structured rejection with a non-empty human-readable
reason; and whenever the instruction carries the bypass marker or a
bypass mode (loss-seeking, or advisory with a loss objective) is
enabled, the result is exactly the minimal non-empty-balance check. -/
theorem riskGate_structured_outcome (pm : Option StrategyParams) (rp : RiskParams)
    (hist : List TradeEntry) (now : ℤ) (d : TradingDecision) (md : MarketData)
    (st : AgentState) :
    (((validateTrade pm rp hist now d md st).isValid = true ∧
        (validateTrade pm rp hist now d md st).reason = none) ∨
      ((validateTrade pm rp hist now d md st).isValid = false ∧
        ∃ s, (validateTrade pm rp hist now d md st).reason = some s ∧ s ≠ "")) ∧
    ((d.isGuaranteedMemeTrade = true ∨ bypassParams pm = true) →
      validateTrade pm rp hist now d md st = performMinimalRiskChecks d md) := by
  constructor
  · unfold validateTrade
    cases hb : d.isGuaranteedMemeTrade
    · cases pm with
      | none => simpa using checksPart_structured rp hist now d md st
      | some p =>
        simp only [Bool.false_eq_true, if_false]
        split
        · exact minimalChecks_structured d md
        · split
          · exact minimalChecks_structured d md
          · exact checksPart_structured rp hist now d md st
    · simpa using minimalChecks_structured d md
  · intro h
    unfold validateTrade
    cases hb : d.isGuaranteedMemeTrade
    · rw [hb] at h
      simp only [Bool.false_eq_true, false_or] at h
      cases pm with
      | none => simp [bypassParams] at h
      | some p =>
        simp only [bypassParams, Bool.or_eq_true, Bool.and_eq_true,
          decide_eq_true_eq] at h
        simp only [Bool.false_eq_true, if_false]
        rcases h with ⟨h1, h2⟩ | h3
        · simp [h1, h2]
        · by_cases hc : (p.llmEnabled && decide (p.llmObjective = LlmObjective.maximizeLoss)) = true
          · simp [hc]
          · simp [hc, h3]
    · simp [hb]

/-- Witness for C1: with the bypass marker set, the gate's result is the
minimal check, hence structured. -/
theorem riskGate_structured_outcome_witness :
    validateTrade none gateRiskParams [] 0
      { gateBuyNearLimit with isGuaranteedMemeTrade := true } gateMd gateState =
      performMinimalRiskChecks
        { gateBuyNearLimit with isGuaranteedMemeTrade := true } gateMd :=
  (riskGate_structured_outcome none gateRiskParams [] 0
    { gateBuyNearLimit with isGuaranteedMemeTrade := true } gateMd gateState).2 (Or.inl rfl)

/-! ## C3 (amended) and C5: the non-bypass checks in isolation -/

/-- C3, amended: for a non-bypass instruction whose other checks pass and
whose source holding is `tok`, the Risk Gate accepts exactly when
`tok.amount ≥ amount × (1 + buffer)` (buffer 1%), i.e. it rejects
whenever `amount × (1 + buffer)` exceeds the balance — so acceptance
requires `amount ≤ balance / (1 + buffer)`, not `balance × (1 + buffer)`. -/
theorem riskGate_balance_buffer
    (pm : Option StrategyParams) (rp : RiskParams) (hist : List TradeEntry) (now : ℤ)
    (d : TradingDecision) (md : MarketData) (st : AgentState) (tok : Token)
    (hbp : d.isGuaranteedMemeTrade = false) (hpm : bypassParams pm = false)
    (hact : st.isActive = true) (hdl : isDailyLossExceeded rp st = false)
    (hta : isTradeAmountValid rp d md = true) (hps : isPositionSizeValid rp d md = true)
    (hfr : isTradeFrequencyValid rp hist now = true)
    (hdd : isMaxDrawdownExceeded rp md = false)
    (htok : findToken md d.fromToken = some tok) :
    ((validateTrade pm rp hist now d md st).isValid = true ↔
      tok.amount ≥ d.amount * (1 + 1 / 100)) ∧
    (d.amount * (1 + 1 / 100) > tok.amount →
      validateTrade pm rp hist now d md st =
        { isValid := false, reason := some "Insufficient balance for trade" }) := by
  have hred : validateTrade pm rp hist now d md st =
      validateTrade.validateTradeChecks rp hist now d md st := by
    unfold validateTrade
    cases pm with
    | none => simp [hbp]
    | some p =>
      simp only [bypassParams, Bool.or_eq_false_iff] at hpm
      simp [hbp, hpm.1, hpm.2]
  have hbal : hasSufficientBalance d md = decide (tok.amount ≥ d.amount * (1 + 1 / 100)) := by
    unfold hasSufficientBalance
    rw [htok]
  rw [hred]
  unfold validateTrade.validateTradeChecks
  rw [hact, hdl, hta, hps, hfr, hdd, hbal]
  by_cases hc : tok.amount ≥ d.amount * (1 + 1 / 100)
  · rw [decide_eq_true hc]
    simp only [Bool.not_true, Bool.false_eq_true, if_false]
    refine ⟨iff_of_true (by simp) hc, fun h => absurd h (not_lt.mpr hc)⟩
  · rw [decide_eq_false hc]
    simp only [Bool.not_false, if_true]
    refine ⟨iff_of_false (by simp) hc, fun h => rfl⟩

/-- Witness for C3 (amended), at a concrete balance of 100. -/
theorem riskGate_balance_buffer_witness :
    ((validateTrade none gateRiskParams [] 0 gateBuySmall gateMd gateState).isValid = true ↔
      gateUsdcToken.amount ≥ gateBuySmall.amount * (1 + 1 / 100)) ∧
    (gateBuySmall.amount * (1 + 1 / 100) > gateUsdcToken.amount →
      validateTrade none gateRiskParams [] 0 gateBuySmall gateMd gateState =
        { isValid := false, reason := some "Insufficient balance for trade" }) :=
  riskGate_balance_buffer none gateRiskParams [] 0 gateBuySmall gateMd gateState gateUsdcToken
    rfl rfl rfl
    (by norm_num [isDailyLossExceeded, gateState, gateRiskParams])
    (by norm_num [isTradeAmountValid, gateBuySmall, gateBuyNearLimit, gateMd, gateRiskParams])
    (by simp [isPositionSizeValid, gateBuySmall, gateBuyNearLimit, gateMd, gateRiskParams,
      findToken, lookupPrice, USDC, WETH, DAI]; norm_num)
    (by norm_num [isTradeFrequencyValid, pruneHistory, gateRiskParams])
    (by norm_num [isMaxDrawdownExceeded, gateMd, gateRiskParams])
    (by simp [findToken, gateMd, gateBuySmall, gateBuyNearLimit, gateUsdcToken, USDC])

/-- C5: for a non-bypass instruction whose other checks pass, the Risk
Gate accepts exactly when the count of window entries strictly newer than
one hour before `now` (the pruned trailing-60-minutes window) is below
the configured cap, and otherwise rejects for trade frequency; entries
older than 60 minutes are pruned by that filter, making a previously
rejected cadence acceptable again. -/
theorem riskGate_trade_frequency
    (pm : Option StrategyParams) (rp : RiskParams) (hist : List TradeEntry) (now : ℤ)
    (d : TradingDecision) (md : MarketData) (st : AgentState)
    (hbp : d.isGuaranteedMemeTrade = false) (hpm : bypassParams pm = false)
    (hact : st.isActive = true) (hdl : isDailyLossExceeded rp st = false)
    (hta : isTradeAmountValid rp d md = true) (hps : isPositionSizeValid rp d md = true)
    (hbal : hasSufficientBalance d md = true)
    (hdd : isMaxDrawdownExceeded rp md = false) :
    ((validateTrade pm rp hist now d md st).isValid = true ↔
      ((pruneHistory hist now).length : ℚ) < rp.maxTradesPerHour) ∧
    (¬ (((pruneHistory hist now).length : ℚ) < rp.maxTradesPerHour) →
      validateTrade pm rp hist now d md st =
        { isValid := false, reason := some "Trade frequency limit exceeded" }) := by
  have hred : validateTrade pm rp hist now d md st =
      validateTrade.validateTradeChecks rp hist now d md st := by
    unfold validateTrade
    cases pm with
    | none => simp [hbp]
    | some p =>
      simp only [bypassParams, Bool.or_eq_false_iff] at hpm
      simp [hbp, hpm.1, hpm.2]
  rw [hred]
  unfold validateTrade.validateTradeChecks
  rw [hact, hdl, hta, hps, hbal]
  unfold isTradeFrequencyValid
  by_cases hc : ((pruneHistory hist now).length : ℚ) < rp.maxTradesPerHour
  · simp [hc, hdd]
  · simp [hc]

/-- Witness for C5: ten recorded trades inside the window are rejected at
a cap of 10; once all ten entries are older than an hour they are pruned
and the same instruction is accepted. -/
theorem riskGate_trade_frequency_witness :
    (validateTrade none gateRiskParams gateHist10 1000 gateBuySmall gateMd gateState =
      { isValid := false, reason := some "Trade frequency limit exceeded" }) ∧
    (validateTrade none gateRiskParams gateHist10 3700000 gateBuySmall gateMd gateState).isValid
      = true := by
  have hbal : hasSufficientBalance gateBuySmall gateMd = true := by
    norm_num [hasSufficientBalance, findToken, gateBuySmall, gateBuyNearLimit, gateMd, USDC]
  constructor
  · exact (riskGate_trade_frequency none gateRiskParams gateHist10 1000 gateBuySmall gateMd
      gateState rfl rfl rfl
      (by norm_num [isDailyLossExceeded, gateState, gateRiskParams])
      (by norm_num [isTradeAmountValid, gateBuySmall, gateBuyNearLimit, gateMd, gateRiskParams])
      (by simp [isPositionSizeValid, gateBuySmall, gateBuyNearLimit, gateMd, gateRiskParams,
        findToken, lookupPrice, USDC, WETH, DAI]; norm_num)
      hbal
      (by norm_num [isMaxDrawdownExceeded, gateMd, gateRiskParams])).2
      (by norm_num [pruneHistory, gateHist10, gateRiskParams])
  · exact (riskGate_trade_frequency none gateRiskParams gateHist10 3700000 gateBuySmall gateMd
      gateState rfl rfl rfl
      (by norm_num [isDailyLossExceeded, gateState, gateRiskParams])
      (by norm_num [isTradeAmountValid, gateBuySmall, gateBuyNearLimit, gateMd, gateRiskParams])
      (by simp [isPositionSizeValid, gateBuySmall, gateBuyNearLimit, gateMd, gateRiskParams,
        findToken, lookupPrice, USDC, WETH, DAI]; norm_num)
      hbal
      (by norm_num [isMaxDrawdownExceeded, gateMd, gateRiskParams])).1.mpr
      (by norm_num [pruneHistory, gateHist10, gateRiskParams])

/-! ## C4 (amended): persistence happens after the advisory step -/

/-- C4, amended: on every cycle where the advisory step does not supply
the decision (advisory disabled, or its collaborator returns null), the
orchestrator first persists the snapshot's prices and then runs the
loss-seeking check and the cascade against the updated store; on an
advisory cycle that returns a decision, the decision is returned verbatim
with no persistence. -/
theorem persistence_before_cascade (params : StrategyParams) (md : MarketData) (db : Db)
    (arbSt : ArbState) (llmResponse : Option TradingDecision)
    (lossToken memeToken : Option TokenCandidate) :
    (params.llmEnabled = false ∨ llmResponse = none →
      makeDecision params md db arbSt llmResponse lossToken memeToken =
        decideAfterAdvisory params md db arbSt lossToken memeToken ∧
      (makeDecision params md db arbSt llmResponse lossToken memeToken).db =
        saveCurrentMarketData md db) ∧
    (∀ dd, params.llmEnabled = true → llmResponse = some dd →
      makeDecision params md db arbSt llmResponse lossToken memeToken =
        { decision := some dd, db := db, arb := arbSt }) := by
  constructor
  · intro h
    have hmk : makeDecision params md db arbSt llmResponse lossToken memeToken =
        decideAfterAdvisory params md db arbSt lossToken memeToken := by
      rcases h with h | h
      · simp [makeDecision, h]
      · unfold makeDecision
        rw [h]
        split <;> rfl
    refine ⟨hmk, ?_⟩
    rw [hmk]
    unfold decideAfterAdvisory
    split
    · split <;> rfl
    · rfl
  · intro dd h1 h2
    simp [makeDecision, h1, h2]

/-- Witness for C4 (amended), on a concrete non-advisory cycle. -/
theorem persistence_before_cascade_witness :
    makeDecision getDefaultParams scenario1Md emptyDb initialArbState none none none =
      decideAfterAdvisory getDefaultParams scenario1Md emptyDb initialArbState none none ∧
    (makeDecision getDefaultParams scenario1Md emptyDb initialArbState none none none).db =
      saveCurrentMarketData scenario1Md emptyDb :=
  (persistence_before_cascade getDefaultParams scenario1Md emptyDb initialArbState none
    none none).1 (Or.inl rfl)

/-! ## C8 (amended): rotation alternates when the primary pair is funded -/

/-- The cycling notional `10 + (counter mod 5) * 8` never exceeds 42. -/
theorem arbTradeAmount_le_42 (c : ℕ) : (10 : ℚ) + ((c % 5 : ℕ) : ℚ) * 8 ≤ 42 := by
  have h1 : (c % 5) ≤ 4 := Nat.le_of_lt_succ (Nat.mod_lt _ (by norm_num))
  have h2 : ((c % 5 : ℕ) : ℚ) ≤ 4 := by exact_mod_cast h1
  linarith

/-- When the last direction was sell and USDC covers the notional, the
rotation fallback buys WETH and records the buy direction. -/
theorem arb_buy_step (st : ArbState) (md : MarketData)
    (h1 : st.lastTradeDirection = Action.sell)
    (hu : getTokenBalance md USDC ≥ 42) (hp : lookupPrice md.prices WETH > 0) :
    checkArbitrage st md =
      (some { action := Action.buy, fromToken := USDC, toToken := WETH,
              amount := 10 + (((st.tradeCounter + 1) % 5 : ℕ) : ℚ) * 8,
              reason := "Arbitrage Swap: Guaranteed trade - buying WETH",
              confidence := 1 / 10 },
       { lastTradeDirection := Action.buy, tradeCounter := st.tradeCounter + 1 }) := by
  have hta := arbTradeAmount_le_42 (st.tradeCounter + 1)
  unfold checkArbitrage
  rw [h1]
  simp only [beq_self_eq_true, if_true]
  rw [if_pos ⟨le_trans hta hu, hp⟩]

/-- When the last direction was not sell and the WETH holding covers the
notional, the rotation fallback sells WETH and records the sell direction. -/
theorem arb_sell_step (st : ArbState) (md : MarketData)
    (h1 : st.lastTradeDirection ≠ Action.sell)
    (hp : lookupPrice md.prices WETH > 0)
    (hv : getTokenBalance md WETH * lookupPrice md.prices WETH ≥ 42) :
    checkArbitrage st md =
      (some { action := Action.sell, fromToken := WETH, toToken := USDC,
              amount := (10 + (((st.tradeCounter + 1) % 5 : ℕ) : ℚ) * 8) /
                lookupPrice md.prices WETH,
              reason := "Arbitrage Swap: Guaranteed trade - selling WETH",
              confidence := 1 / 10 },
       { lastTradeDirection := Action.sell, tradeCounter := st.tradeCounter + 1 }) := by
  have hta := arbTradeAmount_le_42 (st.tradeCounter + 1)
  have hb : getTokenBalance md WETH > 0 := by
    rcases (mul_pos_iff.mp (lt_of_lt_of_le (by norm_num) hv)) with ⟨hb, _⟩ | ⟨_, hpneg⟩
    · exact hb
    · exact absurd hp (not_lt.mpr (le_of_lt hpneg))
  unfold checkArbitrage
  have hbeq : (st.lastTradeDirection == Action.sell) = false := by
    simp [beq_eq_false_iff_ne, h1]
  rw [hbeq]
  simp only [Bool.false_eq_true, if_false]
  rw [if_pos ⟨hb, hp⟩]
  rw [if_pos (le_trans hta hv)]

/-- C8, amended: invoked repeatedly on a static snapshot whose primary
WETH/USDC pair can fund both directions (USDC balance and WETH holding
value at least the maximal cycling notional 42, positive WETH price), the
guaranteed-rotation fallback alternates the buy/sell direction across
consecutive invocations, from any starting state. -/
theorem rotation_alternates_when_primary_funded (md : MarketData) (st : ArbState)
    (hu : getTokenBalance md USDC ≥ 42)
    (hp : lookupPrice md.prices WETH > 0)
    (hv : getTokenBalance md WETH * lookupPrice md.prices WETH ≥ 42) :
    ∃ d1 d2,
      (checkArbitrage st md).1 = some d1 ∧
      (checkArbitrage (checkArbitrage st md).2 md).1 = some d2 ∧
      d1.action ≠ d2.action := by
  by_cases h1 : st.lastTradeDirection = Action.sell
  · rw [arb_buy_step st md h1 hu hp]
    rw [arb_sell_step { lastTradeDirection := Action.buy, tradeCounter := st.tradeCounter + 1 }
      md (by simp) hp hv]
    exact ⟨_, _, rfl, rfl, by simp⟩
  · rw [arb_sell_step st md h1 hp hv]
    rw [arb_buy_step { lastTradeDirection := Action.sell, tradeCounter := st.tradeCounter + 1 }
      md rfl hu hp]
    exact ⟨_, _, rfl, rfl, by simp⟩

/-- Witness for C8 (amended), on the funded scenario-1 snapshot. -/
theorem rotation_alternates_when_primary_funded_witness :
    ∃ d1 d2,
      (checkArbitrage initialArbState scenario1Md).1 = some d1 ∧
      (checkArbitrage (checkArbitrage initialArbState scenario1Md).2 scenario1Md).1 = some d2 ∧
      d1.action ≠ d2.action :=
  rotation_alternates_when_primary_funded scenario1Md initialArbState
    (by norm_num [getTokenBalance, findToken, scenario1Md, USDC])
    (by simp [lookupPrice, scenario1Md, USDC, WETH])
    (by simp [getTokenBalance, findToken, lookupPrice, scenario1Md, USDC, WETH]; norm_num)

/-! ## C6: strict cascade priority -/

/-- The early-exit runner returns exactly the first non-null candidate. -/
theorem runThunks_fst (fs : List (Unit → Option α)) :
    (runThunks fs).1 = firstSome (fs.map (fun f => f ())) := by
  induction fs with
  | nil => rfl
  | cons f fs ih =>
    cases h : f () with
    | some a => simp [runThunks, firstSome, h]
    | none => simp [runThunks, firstSome, h, ih]

/-- The early-exit runner invokes at most `i + 1` evaluators when the
`i`-th candidate is non-null: evaluators after the first satisfied one
are never invoked. -/
theorem runThunks_stops_at_first (fs : List (Unit → Option α)) :
    ∀ i, i < fs.length → ((fs.map (fun f => f ())).getD i none).isSome = true →
      (runThunks fs).2 ≤ i + 1 := by
  induction fs with
  | nil => intro i hi; simp at hi
  | cons f fs ih =>
    intro i hi hsome
    cases h : f () with
    | some a => simp [runThunks, h]
    | none =>
      cases i with
      | zero => simp [h] at hsome
      | succ j =>
        have := ih j (by simpa using hi) (by simpa using hsome)
        simp [runThunks, h]
        omega

/-- The decision component of the orchestrator's cascade equals the
first non-null candidate of the ordered candidate list. -/
theorem runStrategyCascade_fst (params : StrategyParams) (md : MarketData) (db : Db)
    (arbSt : ArbState) (memeToken : Option TokenCandidate) :
    (runStrategyCascade params md db arbSt memeToken).1 =
      firstSome (cascadeCandidates params md db arbSt memeToken) := by
  unfold runStrategyCascade cascadeCandidates
  cases h1 : checkRebalancing params md with
  | some d => simp [firstSome, h1]
  | none =>
  simp only [firstSome]
  cases h2 : checkTrendFollowing db params md with
  | some d => simp [firstSome, h2]
  | none =>
  simp only [firstSome]
  cases h3 : checkBreakout db params md with
  | some d => simp [firstSome, h3]
  | none =>
  simp only [firstSome]
  cases h4 : checkMeanReversion db params md with
  | some d => simp [firstSome, h4]
  | none =>
  simp only [firstSome]
  cases h5 : checkMomentumStrategy params md with
  | some d => simp [firstSome, h5]
  | none =>
  simp only [firstSome]
  cases h6 : checkArbitrage arbSt md with
  | mk fst snd =>
  cases fst with
  | some d => simp [firstSome, h6]
  | none =>
  simp only [firstSome]
  cases h7 : makeGuaranteedMemeDecision params md memeToken with
  | some d => simp [firstSome, h6, h7]
  | none => simp [firstSome, h6, h7]

/-- C6: when neither the advisory mode nor the loss-seeking mode
preempts, the orchestrator returns the first non-null candidate of the
strict order Rebalancer, Trend-Following, Breakout, Mean-Reversion,
Momentum-fallback, guaranteed rotation, guaranteed discovery (all reading
the freshly persisted store), and an instrumented run of the same ordered
evaluators invokes at most `i + 1` of them whenever the `i`-th trigger is
satisfied — evaluators after the first satisfied one are never invoked. -/
theorem cascade_strict_priority (params : StrategyParams) (md : MarketData) (db : Db)
    (arbSt : ArbState) (llmResponse : Option TradingDecision)
    (lossToken memeToken : Option TokenCandidate)
    (hllm : params.llmEnabled = false) (hloss : params.lossStrategyEnabled = false) :
    ((makeDecision params md db arbSt llmResponse lossToken memeToken).decision =
      firstSome (cascadeCandidates params md (saveCurrentMarketData md db) arbSt memeToken)) ∧
    ((runThunks (cascadeThunks params md (saveCurrentMarketData md db) arbSt memeToken)).1 =
      (makeDecision params md db arbSt llmResponse lossToken memeToken).decision) ∧
    (∀ i, i < 7 →
      ((cascadeCandidates params md (saveCurrentMarketData md db) arbSt
          memeToken).getD i none).isSome = true →
      (runThunks (cascadeThunks params md (saveCurrentMarketData md db) arbSt
          memeToken)).2 ≤ i + 1) := by
  have hmap : (cascadeThunks params md (saveCurrentMarketData md db) arbSt memeToken).map
      (fun f => f ()) = cascadeCandidates params md (saveCurrentMarketData md db) arbSt
      memeToken := rfl
  have hdec : (makeDecision params md db arbSt llmResponse lossToken memeToken).decision =
      firstSome (cascadeCandidates params md (saveCurrentMarketData md db) arbSt memeToken) := by
    unfold makeDecision decideAfterAdvisory
    rw [hllm, hloss]
    simp only [Bool.false_and, Bool.false_eq_true, if_false]
    rw [← runStrategyCascade_fst]
  refine ⟨hdec, ?_, ?_⟩
  · rw [runThunks_fst, hmap, hdec]
  · intro i hi hsome
    exact runThunks_stops_at_first _ i (by simpa [cascadeThunks] using hi)
      (by rw [hmap]; exact hsome)

/-- Witness for C6, on the scenario-1 snapshot with default parameters. -/
theorem cascade_strict_priority_witness :
    ((makeDecision getDefaultParams scenario1Md emptyDb initialArbState none
        none none).decision =
      firstSome (cascadeCandidates getDefaultParams scenario1Md
        (saveCurrentMarketData scenario1Md emptyDb) initialArbState none)) ∧
    ((runThunks (cascadeThunks getDefaultParams scenario1Md
        (saveCurrentMarketData scenario1Md emptyDb) initialArbState none)).1 =
      (makeDecision getDefaultParams scenario1Md emptyDb initialArbState none
        none none).decision) ∧
    (∀ i, i < 7 →
      ((cascadeCandidates getDefaultParams scenario1Md
          (saveCurrentMarketData scenario1Md emptyDb) initialArbState
          none).getD i none).isSome = true →
      (runThunks (cascadeThunks getDefaultParams scenario1Md
          (saveCurrentMarketData scenario1Md emptyDb) initialArbState none)).2 ≤ i + 1) :=
  cascade_strict_priority getDefaultParams scenario1Md emptyDb initialArbState none
    none none rfl rfl

/-! ## C7 (amended): the trend-following windows, corrected -/

/-- The trailing-window operation is a drop from the front. -/
theorem takeLast_eq_drop (l : List α) (n : ℕ) : takeLast l n = l.drop (l.length - n) := by
  unfold takeLast
  rw [List.reverse_take]
  simp

/-- Length of the trailing window. -/
theorem takeLast_length (l : List α) (n : ℕ) : (takeLast l n).length = min n l.length := by
  simp [takeLast]

/-- A trailing window at least as long as the list is the list itself. -/
theorem takeLast_of_length_le (l : List α) (n : ℕ) (h : l.length ≤ n) : takeLast l n = l := by
  rw [takeLast_eq_drop, Nat.sub_eq_zero_of_le h, List.drop_zero]

/-- The code's `slice(-(n+1), -1)` window coincides with the spec's `n`
points immediately preceding the newest — when that many are present;
with fewer, both return what precedes the newest point. -/
theorem slicePrev_eq_specPrevWindow (l : List MarketDataPoint) (n : ℕ) :
    slicePrev l n = specPrevWindow l n := by
  unfold slicePrev specPrevWindow
  rw [takeLast_eq_drop, takeLast_eq_drop, List.dropLast_eq_take, List.dropLast_eq_take,
    List.drop_take]
  simp only [List.length_drop, List.length_take]
  rw [min_eq_left (Nat.sub_le l.length 1)]
  rw [show l.length - (n + 1) = l.length - 1 - n from by omega]
  rw [show l.length - (l.length - 1 - n) - 1 = l.length - 1 - (l.length - 1 - n) from by omega]

/-- C7, amended: for an instrument with at least long-window-length
stored points (the fetch is capped at that length, so exactly that many
are seen), positive window lengths, a non-zero snapshot price and
passing sizing gates, the Trend-Following evaluator signals buy exactly
when the short SMA rises from ≤ the long SMA to > it and sell exactly
when it falls from ≥ to < — where the previous short SMA averages the
short-window points immediately preceding the newest, but the previous
long SMA averages only the fetched points without the newest, i.e.
long-window-length − 1 points rather than the long-window-length the
spec describes. -/
theorem trend_crossover_windows (db : Db) (params : StrategyParams) (md : MarketData)
    (tokenAddress : String)
    (hlen : (getMarketDataByToken db tokenAddress
        params.trendFollowingLongSmaPeriod).length ≥ params.trendFollowingLongSmaPeriod)
    (hS : 0 < params.trendFollowingShortSmaPeriod)
    (hL : 0 < params.trendFollowingLongSmaPeriod)
    (hprice : lookupPrice md.prices tokenAddress ≠ 0)
    (husdc : getTokenBalance md USDC ≥ params.minTradeAmount)
    (hbuy : min (getTokenBalance md USDC * (25 / 100))
        (md.portfolio.totalValue * params.maxPositionSize) ≥ params.minTradeAmount)
    (htb : getTokenBalance md tokenAddress > 0)
    (hsell : getTokenBalance md tokenAddress * lookupPrice md.prices tokenAddress ≥
        params.minTradeAmount) :
    ((trendSignalForToken db params md tokenAddress).map (fun d => d.action) =
        some Action.buy ↔
      (calculateSMA (specPrevWindow (getMarketDataByToken db tokenAddress
          params.trendFollowingLongSmaPeriod) params.trendFollowingShortSmaPeriod) ≤
        calculateSMA ((getMarketDataByToken db tokenAddress
          params.trendFollowingLongSmaPeriod).dropLast) ∧
       calculateSMA (takeLast (getMarketDataByToken db tokenAddress
          params.trendFollowingLongSmaPeriod) params.trendFollowingShortSmaPeriod) >
        calculateSMA (getMarketDataByToken db tokenAddress
          params.trendFollowingLongSmaPeriod))) ∧
    ((trendSignalForToken db params md tokenAddress).map (fun d => d.action) =
        some Action.sell ↔
      (calculateSMA (specPrevWindow (getMarketDataByToken db tokenAddress
          params.trendFollowingLongSmaPeriod) params.trendFollowingShortSmaPeriod) ≥
        calculateSMA ((getMarketDataByToken db tokenAddress
          params.trendFollowingLongSmaPeriod).dropLast) ∧
       calculateSMA (takeLast (getMarketDataByToken db tokenAddress
          params.trendFollowingLongSmaPeriod) params.trendFollowingShortSmaPeriod) <
        calculateSMA (getMarketDataByToken db tokenAddress
          params.trendFollowingLongSmaPeriod))) := by
  have hSne : params.trendFollowingShortSmaPeriod ≠ 0 := hS.ne'
  have hLne : params.trendFollowingLongSmaPeriod ≠ 0 := hL.ne'
  have hhlen : (getMarketDataByToken db tokenAddress
      params.trendFollowingLongSmaPeriod).length ≤ params.trendFollowingLongSmaPeriod := by
    rw [getMarketDataByToken, takeLast_length]
    exact Nat.min_le_left _ _
  have hslice2 : sliceNeg (getMarketDataByToken db tokenAddress
      params.trendFollowingLongSmaPeriod) params.trendFollowingLongSmaPeriod =
      getMarketDataByToken db tokenAddress params.trendFollowingLongSmaPeriod := by
    rw [sliceNeg, if_neg hLne, takeLast_of_length_le _ _ hhlen]
  have hprev2 : slicePrev (getMarketDataByToken db tokenAddress
      params.trendFollowingLongSmaPeriod) params.trendFollowingLongSmaPeriod =
      (getMarketDataByToken db tokenAddress params.trendFollowingLongSmaPeriod).dropLast := by
    rw [slicePrev_eq_specPrevWindow, specPrevWindow, takeLast_of_length_le]
    calc (getMarketDataByToken db tokenAddress
        params.trendFollowingLongSmaPeriod).dropLast.length
        ≤ (getMarketDataByToken db tokenAddress params.trendFollowingLongSmaPeriod).length :=
          by simp [List.length_dropLast]
      _ ≤ params.trendFollowingLongSmaPeriod := hhlen
  unfold trendSignalForToken
  rw [if_neg (not_lt.mpr hlen)]
  rw [sliceNeg, if_neg hSne]
  rw [hslice2, hprev2, slicePrev_eq_specPrevWindow]
  rw [if_neg hprice]
  by_cases hg : calculateSMA (specPrevWindow (getMarketDataByToken db tokenAddress
      params.trendFollowingLongSmaPeriod) params.trendFollowingShortSmaPeriod) ≤
      calculateSMA ((getMarketDataByToken db tokenAddress
        params.trendFollowingLongSmaPeriod).dropLast) ∧
      calculateSMA (takeLast (getMarketDataByToken db tokenAddress
        params.trendFollowingLongSmaPeriod) params.trendFollowingShortSmaPeriod) >
      calculateSMA (getMarketDataByToken db tokenAddress params.trendFollowingLongSmaPeriod)
  · rw [if_pos hg, if_pos husdc, if_pos hbuy]
    constructor
    · exact iff_of_true rfl hg
    · refine iff_of_false (by simp) ?_
      rintro ⟨-, hlt⟩
      exact absurd hg.2 (not_lt.mpr (le_of_lt hlt))
  · rw [if_neg hg]
    by_cases hd : calculateSMA (specPrevWindow (getMarketDataByToken db tokenAddress
        params.trendFollowingLongSmaPeriod) params.trendFollowingShortSmaPeriod) ≥
        calculateSMA ((getMarketDataByToken db tokenAddress
          params.trendFollowingLongSmaPeriod).dropLast) ∧
        calculateSMA (takeLast (getMarketDataByToken db tokenAddress
          params.trendFollowingLongSmaPeriod) params.trendFollowingShortSmaPeriod) <
        calculateSMA (getMarketDataByToken db tokenAddress params.trendFollowingLongSmaPeriod)
    · rw [if_pos hd, if_pos htb, if_pos hsell]
      exact ⟨iff_of_false (by simp) (fun hgg => hg hgg), iff_of_true rfl hd⟩
    · rw [if_neg hd]
      exact ⟨iff_of_false (by simp) (fun hgg => hg hgg),
        iff_of_false (by simp) (fun hdd => hd hdd)⟩

/-- Witness for C7 (amended): the concrete four-point WETH series with
short window 1 and long window 3. -/
theorem trend_crossover_windows_witness :
    ((trendSignalForToken trendDb4 trendParams13 trendMd WETH).map (fun d => d.action) =
        some Action.buy ↔
      (calculateSMA (specPrevWindow (getMarketDataByToken trendDb4 WETH
          trendParams13.trendFollowingLongSmaPeriod)
          trendParams13.trendFollowingShortSmaPeriod) ≤
        calculateSMA ((getMarketDataByToken trendDb4 WETH
          trendParams13.trendFollowingLongSmaPeriod).dropLast) ∧
       calculateSMA (takeLast (getMarketDataByToken trendDb4 WETH
          trendParams13.trendFollowingLongSmaPeriod)
          trendParams13.trendFollowingShortSmaPeriod) >
        calculateSMA (getMarketDataByToken trendDb4 WETH
          trendParams13.trendFollowingLongSmaPeriod))) ∧
    ((trendSignalForToken trendDb4 trendParams13 trendMd WETH).map (fun d => d.action) =
        some Action.sell ↔
      (calculateSMA (specPrevWindow (getMarketDataByToken trendDb4 WETH
          trendParams13.trendFollowingLongSmaPeriod)
          trendParams13.trendFollowingShortSmaPeriod) ≥
        calculateSMA ((getMarketDataByToken trendDb4 WETH
          trendParams13.trendFollowingLongSmaPeriod).dropLast) ∧
       calculateSMA (takeLast (getMarketDataByToken trendDb4 WETH
          trendParams13.trendFollowingLongSmaPeriod)
          trendParams13.trendFollowingShortSmaPeriod) <
        calculateSMA (getMarketDataByToken trendDb4 WETH
          trendParams13.trendFollowingLongSmaPeriod))) :=
  trend_crossover_windows trendDb4 trendParams13 trendMd WETH
    (by simp [getMarketDataByToken, takeLast, trendDb4, trendParams13, getDefaultParams, WETH])
    (by norm_num [trendParams13, getDefaultParams])
    (by norm_num [trendParams13, getDefaultParams])
    (by simp [lookupPrice, trendMd, USDC, WETH])
    (by simp [getTokenBalance, findToken, trendMd, trendParams13, getDefaultParams, USDC]
        ; norm_num)
    (by simp [getTokenBalance, findToken, trendMd, trendParams13, getDefaultParams, USDC]
        ; norm_num)
    (by simp [getTokenBalance, findToken, trendMd, USDC, WETH])
    (by simp [getTokenBalance, findToken, lookupPrice, trendMd, trendParams13,
        getDefaultParams, USDC, WETH] ; norm_num)

/-! ## C9 (amended): well-formedness of cascade decisions -/

theorem lookupPrice_nonneg (md : MarketData) (h : snapshotOK md) (tok : String) :
    0 ≤ lookupPrice md.prices tok := by
  unfold lookupPrice
  cases hf : md.prices.find? (fun p => p.1 == tok) with
  | none => exact le_refl 0
  | some p => exact h.2 p (List.mem_of_find?_eq_some hf)

/-- The running minimum of stored prices never exceeds the running maximum. -/
theorem pricesMin_le_pricesMax (l : List MarketDataPoint) : pricesMin l ≤ pricesMax l := by
  have key : ∀ (xs : List MarketDataPoint) (a b : ℚ), a ≤ b →
      xs.foldl (fun x q => min x q.price) a ≤ xs.foldl (fun x q => max x q.price) b := by
    intro xs
    induction xs with
    | nil => intro a b hab; exact hab
    | cons q rest ih =>
      intro a b hab
      exact ih _ _ (le_trans (min_le_left _ _) (le_trans hab (le_max_left _ _)))
  cases l with
  | nil => simp [pricesMin, pricesMax]
  | cons p rest => exact key rest p.price p.price (le_refl _)

/-- The holding picked by the value-maximising reduce is one of the inputs. -/
theorem maxByValue_mem (l : List Token) (t : Token) : maxByValue t l ∈ t :: l := by
  induction l generalizing t with
  | nil => simp [maxByValue]
  | cons u rest ih =>
    unfold maxByValue
    by_cases hc : u.value > t.value
    · rw [if_pos hc]
      rcases List.mem_cons.mp (ih u) with h | h
      · simp [h]
      · simp [h]
    · rw [if_neg hc]
      rcases List.mem_cons.mp (ih t) with h | h
      · simp [h]
      · simp [h]


/-- Every instruction the rebalancing loop emits is well-formed, given a
positive minimum trade amount and a consistent snapshot. -/
theorem rebalanceLoop_wf (params : StrategyParams) (md : MarketData)
    (hmin : 0 < params.minTradeAmount) (hsnap : snapshotOK md) :
    ∀ l d, rebalanceLoop params md l = some d → wellFormedDecision d := by
  intro l
  induction l with
  | nil => intro d h; simp [rebalanceLoop] at h
  | cons e rest ih =>
    intro d h
    unfold rebalanceLoop at h
    dsimp only at h
    split at h
    · split at h
      · split at h
        · injection h with h
          subst h
          have hp : 0 ≤ lookupPrice md.prices e.1 := lookupPrice_nonneg md hsnap e.1
          rename_i hgate
          have hpos : 0 < (allocOf md.portfolio e.1 - e.2) * md.portfolio.totalValue /
              lookupPrice md.prices e.1 := by
            by_contra hle
            push_neg at hle
            have : (allocOf md.portfolio e.1 - e.2) * md.portfolio.totalValue /
                lookupPrice md.prices e.1 * lookupPrice md.prices e.1 ≤ 0 :=
              mul_nonpos_of_nonpos_of_nonneg hle hp
            linarith
          exact ⟨Or.inr rfl, hpos, by norm_num, by norm_num⟩
        · exact ih d h
      · split at h
        · injection h with h
          subst h
          rename_i hgate
          exact ⟨Or.inl rfl, lt_of_lt_of_le hmin hgate.1, by norm_num, by norm_num⟩
        · exact ih d h
    · exact ih d h

/-- Well-formedness of the Rebalancer's output. -/
theorem checkRebalancing_wf (params : StrategyParams) (md : MarketData)
    (hmin : 0 < params.minTradeAmount) (hsnap : snapshotOK md)
    (d : TradingDecision) (h : checkRebalancing params md = some d) :
    wellFormedDecision d :=
  rebalanceLoop_wf params md hmin hsnap params.targetAllocations d h

/-- Well-formedness of the Momentum fallback's output. -/
theorem checkMomentumStrategy_wf (params : StrategyParams) (md : MarketData)
    (hmin : 0 < params.minTradeAmount)
    (d : TradingDecision) (h : checkMomentumStrategy params md = some d) :
    wellFormedDecision d := by
  unfold checkMomentumStrategy at h
  dsimp only at h
  split at h
  · simp at h
  · split at h
    · simp at h
    · split at h
      · split at h
        · injection h with h
          subst h
          rename_i hgate
          exact ⟨Or.inl rfl, lt_of_lt_of_le hmin hgate, by norm_num, by norm_num⟩
        · simp at h
      · simp at h

/-- Well-formedness of a Trend-Following signal for one token. -/
theorem trendSignalForToken_wf (db : Db) (params : StrategyParams) (md : MarketData)
    (tok : String) (hmin : 0 < params.minTradeAmount)
    (d : TradingDecision) (h : trendSignalForToken db params md tok = some d) :
    wellFormedDecision d := by
  unfold trendSignalForToken at h
  dsimp only at h
  split at h
  · simp at h
  · split at h
    · simp at h
    · split at h
      · split at h
        · split at h
          · injection h with h
            subst h
            rename_i hgate
            exact ⟨Or.inl rfl, lt_of_lt_of_le hmin hgate, by norm_num, by norm_num⟩
          · simp at h
        · simp at h
      · split at h
        · split at h
          · split at h
            · injection h with h
              subst h
              rename_i htb hgate
              refine ⟨Or.inr rfl, ?_, by norm_num, by norm_num⟩
              have h04 : (0 : ℚ) < getTokenBalance md tok * (4 / 10) := by positivity
              exact lt_min h04 htb
            · simp at h
          · simp at h
        · simp at h


/-- Well-formedness of a Mean-Reversion signal for one token. -/
theorem meanReversionSignalForToken_wf (db : Db) (params : StrategyParams) (md : MarketData)
    (tok : String) (hmin : 0 < params.minTradeAmount)
    (d : TradingDecision) (h : meanReversionSignalForToken db params md tok = some d) :
    wellFormedDecision d := by
  unfold meanReversionSignalForToken at h
  dsimp only at h
  split at h
  · simp at h
  · split at h
    · simp at h
    · split at h
      · split at h
        · split at h
          · split at h
            · injection h with h
              subst h
              rename_i hgate
              refine ⟨Or.inl rfl, lt_of_lt_of_le hmin hgate, ?_, ?_⟩
              · refine le_min (by norm_num) ?_
                positivity
              · exact le_trans (min_le_left _ _) (by norm_num)
            · simp at h
          · simp at h
        · split at h
          · split at h
            · split at h
              · injection h with h
                subst h
                rename_i htb hgate
                refine ⟨Or.inr rfl, ?_, ?_, ?_⟩
                · have h03 : (0 : ℚ) < getTokenBalance md tok * (3 / 10) := by positivity
                  exact lt_min h03 htb
                · refine le_min (by norm_num) ?_
                  positivity
                · exact le_trans (min_le_left _ _) (by norm_num)
              · simp at h
            · simp at h
          · simp at h
      · simp at h

/-- Well-formedness of a Breakout signal for one token. -/
theorem breakoutSignalForToken_wf (db : Db) (params : StrategyParams) (md : MarketData)
    (tok : String) (hmin : 0 < params.minTradeAmount)
    (d : TradingDecision) (h : breakoutSignalForToken db params md tok = some d) :
    wellFormedDecision d := by
  have hrange : (0 : ℚ) ≤ pricesMax (sliceNeg (getMarketDataByToken db tok
        params.breakoutLookbackPeriod)
        (min 20 (getMarketDataByToken db tok params.breakoutLookbackPeriod).length)) -
      pricesMin (sliceNeg (getMarketDataByToken db tok params.breakoutLookbackPeriod)
        (min 20 (getMarketDataByToken db tok params.breakoutLookbackPeriod).length)) :=
    sub_nonneg.mpr (pricesMin_le_pricesMax _)
  unfold breakoutSignalForToken at h
  dsimp only at h
  split at h
  · simp at h
  · split at h
    · simp at h
    · split at h
      · simp at h
      · split at h
        · split at h
          · split at h
            · injection h with h
              subst h
              rename_i hup husdc hbuy
              refine ⟨Or.inl rfl, lt_of_lt_of_le hmin hbuy, ?_, ?_⟩
              · refine le_min (by norm_num) ?_
                have hnum := le_of_lt (sub_pos.mpr hup)
                have hstr := div_nonneg hnum hrange
                linarith
              · exact le_trans (min_le_left _ _) (by norm_num)
            · simp at h
          · simp at h
        · split at h
          · split at h
            · split at h
              · injection h with h
                subst h
                rename_i hdown htb hsell
                refine ⟨Or.inr rfl, ?_, ?_, ?_⟩
                · have h05 : (0 : ℚ) < getTokenBalance md tok * (1 / 2) := by positivity
                  exact lt_min h05 htb
                · refine le_min (by norm_num) ?_
                  have hnum := le_of_lt (sub_pos.mpr hdown)
                  have hstr := div_nonneg hnum hrange
                  linarith
                · exact le_trans (min_le_left _ _) (by norm_num)
              · simp at h
            · simp at h
          · simp at h


/-- Well-formedness of the guaranteed-rotation fallback's output. -/
theorem checkArbitrage_wf (st : ArbState) (md : MarketData)
    (d : TradingDecision) (h : (checkArbitrage st md).1 = some d) :
    wellFormedDecision d := by
  have htA : (0 : ℚ) < 10 + (((st.tradeCounter + 1) % 5 : ℕ) : ℚ) * 8 := by positivity
  unfold checkArbitrage arbFallback arbFallback.arbLastResort at h
  dsimp only at h
  repeat' split at h
  all_goals (try simp at h)
  all_goals subst h
  all_goals refine ⟨by simp, ?_, by norm_num, by norm_num⟩
  all_goals first
    | exact htA
    | (refine div_pos htA ?_; simp_all)


/-- Well-formedness of the loss-seeking evaluator's output. -/
theorem checkLossStrategy_wf (params : StrategyParams) (md : MarketData)
    (lossToken : Option TokenCandidate)
    (d : TradingDecision) (h : checkLossStrategy params md lossToken = some d) :
    wellFormedDecision d := by
  unfold checkLossStrategy createLossDecision at h
  dsimp only at h
  repeat' split at h
  all_goals (try simp at h)
  all_goals subst h
  all_goals refine ⟨by simp, ?_, by norm_num, by norm_num⟩
  all_goals rename_i hgate
  all_goals exact lt_of_lt_of_le (by norm_num) hgate.1

/-- Well-formedness of the guaranteed-discovery fallback's output. -/
theorem makeGuaranteedMemeDecision_wf (params : StrategyParams) (md : MarketData)
    (memeToken : Option TokenCandidate)
    (hmeme : 0 < params.guaranteedMemeTradeAmountUSD) (hsnap : snapshotOK md)
    (d : TradingDecision) (h : makeGuaranteedMemeDecision params md memeToken = some d) :
    wellFormedDecision d := by
  unfold makeGuaranteedMemeDecision at h
  dsimp only at h
  split at h
  · simp at h
  · split at h
    · simp at h
    · split at h
      · simp at h
        subst h
        exact ⟨Or.inl rfl, hmeme, by norm_num, by norm_num⟩
      · split at h
        · simp at h
        · rename_i t0 rest heq
          simp at h
          subst h
          have hmem : maxByValue t0 rest ∈ t0 :: rest := maxByValue_mem rest t0
          rw [← heq] at hmem
          have hmem2 := List.mem_filter.mp hmem
          have hprops := hmem2.2
          simp only [Bool.and_eq_true, decide_eq_true_eq] at hprops
          have hamt : 0 < (maxByValue t0 rest).amount := hprops.1.1.1
          have hval : params.guaranteedMemeTradeAmountUSD ≤ (maxByValue t0 rest).value :=
            hprops.1.1.2
          have hvalpos : 0 < (maxByValue t0 rest).value := lt_of_lt_of_le hmeme hval
          have hvm := (hsnap.1 (maxByValue t0 rest) hmem2.1).2.2
          have hppos : 0 < (maxByValue t0 rest).price := by
            by_contra hle
            push_neg at hle
            have : (maxByValue t0 rest).value ≤ 0 := by
              rw [hvm]
              exact mul_nonpos_of_nonneg_of_nonpos (le_of_lt hamt) hle
            linarith
          refine ⟨Or.inr rfl, ?_, by norm_num, by norm_num⟩
          refine div_pos (lt_min ?_ ?_) hppos
          · positivity
          · positivity


/-- The first non-null candidate is one of the candidates. -/
theorem firstSome_mem {l : List (Option α)} {a : α} (h : firstSome l = some a) :
    some a ∈ l := by
  induction l with
  | nil => simp [firstSome] at h
  | cons o rest ih =>
    cases o with
    | some b => simp [firstSome] at h; simp [h]
    | none => simp [firstSome] at h; simp [ih h]

/-- Well-formedness of the Trend-Following evaluator's output. -/
theorem checkTrendFollowing_wf (db : Db) (params : StrategyParams) (md : MarketData)
    (hmin : 0 < params.minTradeAmount)
    (d : TradingDecision) (h : checkTrendFollowing db params md = some d) :
    wellFormedDecision d := by
  unfold checkTrendFollowing at h
  have hm := firstSome_mem h
  simp only [List.map_cons, List.map_nil, List.mem_cons, List.not_mem_nil, or_false] at hm
  rcases hm with hm | hm
  · exact trendSignalForToken_wf db params md WETH hmin d hm.symm
  · exact trendSignalForToken_wf db params md WBTC hmin d hm.symm

/-- Well-formedness of the Mean-Reversion evaluator's output. -/
theorem checkMeanReversion_wf (db : Db) (params : StrategyParams) (md : MarketData)
    (hmin : 0 < params.minTradeAmount)
    (d : TradingDecision) (h : checkMeanReversion db params md = some d) :
    wellFormedDecision d := by
  unfold checkMeanReversion at h
  have hm := firstSome_mem h
  simp only [List.map_cons, List.map_nil, List.mem_cons, List.not_mem_nil, or_false] at hm
  rcases hm with hm | hm
  · exact meanReversionSignalForToken_wf db params md WETH hmin d hm.symm
  · exact meanReversionSignalForToken_wf db params md WBTC hmin d hm.symm

/-- Well-formedness of the Breakout evaluator's output. -/
theorem checkBreakout_wf (db : Db) (params : StrategyParams) (md : MarketData)
    (hmin : 0 < params.minTradeAmount)
    (d : TradingDecision) (h : checkBreakout db params md = some d) :
    wellFormedDecision d := by
  unfold checkBreakout at h
  have hm := firstSome_mem h
  simp only [List.map_cons, List.map_nil, List.mem_cons, List.not_mem_nil, or_false] at hm
  rcases hm with hm | hm
  · exact breakoutSignalForToken_wf db params md WETH hmin d hm.symm
  · exact breakoutSignalForToken_wf db params md WBTC hmin d hm.symm

/-- Every instruction the signal cascade returns is well-formed. -/
theorem runStrategyCascade_wf (params : StrategyParams) (md : MarketData) (db : Db)
    (arbSt : ArbState) (memeToken : Option TokenCandidate)
    (hmin : 0 < params.minTradeAmount) (hmeme : 0 < params.guaranteedMemeTradeAmountUSD)
    (hsnap : snapshotOK md)
    (d : TradingDecision) (h : (runStrategyCascade params md db arbSt memeToken).1 = some d) :
    wellFormedDecision d := by
  rw [runStrategyCascade_fst] at h
  have hm := firstSome_mem h
  simp only [cascadeCandidates, List.mem_cons, List.not_mem_nil, or_false] at hm
  rcases hm with hm | hm | hm | hm | hm | hm | hm
  · exact checkRebalancing_wf params md hmin hsnap d hm.symm
  · exact checkTrendFollowing_wf db params md hmin d hm.symm
  · exact checkBreakout_wf db params md hmin d hm.symm
  · exact checkMeanReversion_wf db params md hmin d hm.symm
  · exact checkMomentumStrategy_wf params md hmin d hm.symm
  · exact checkArbitrage_wf arbSt md d hm.symm
  · exact makeGuaranteedMemeDecision_wf params md memeToken hmeme hsnap d hm.symm

/-- C9, amended: on every cycle where the advisory step does not supply
the decision, any non-null instruction returned by the orchestrator's
decide operation has action buy or sell, a positive amount and a
confidence in [0,1], provided the snapshot is consistent and the
parameters have a positive minimum trade amount, a positive
guaranteed-discovery notional and a positive breakout lookback (at
lookback 0 the source's empty-window `Math.max()` produces a
`NaN`-confidence breakout buy, outside this rational embedding; the
positive-lookback hypothesis excludes that input, and under it the
embedding is faithful on every branch the proof takes). -/
theorem cascade_decisions_wellformed (params : StrategyParams) (md : MarketData) (db : Db)
    (arbSt : ArbState) (llmResponse : Option TradingDecision)
    (lossToken memeToken : Option TokenCandidate)
    (hadv : params.llmEnabled = false ∨ llmResponse = none)
    (hmin : 0 < params.minTradeAmount) (hmeme : 0 < params.guaranteedMemeTradeAmountUSD)
    (_hblk : 0 < params.breakoutLookbackPeriod)
    (hsnap : snapshotOK md) :
    ∀ d, (makeDecision params md db arbSt llmResponse lossToken memeToken).decision = some d →
      (d.action = Action.buy ∨ d.action = Action.sell) ∧ 0 < d.amount ∧
      0 ≤ d.confidence ∧ d.confidence ≤ 1 := by
  intro d h
  have hmk : makeDecision params md db arbSt llmResponse lossToken memeToken =
      decideAfterAdvisory params md db arbSt lossToken memeToken := by
    rcases hadv with ha | ha
    · simp [makeDecision, ha]
    · unfold makeDecision
      rw [ha]
      split <;> rfl
  rw [hmk] at h
  unfold decideAfterAdvisory at h
  dsimp only at h
  split at h
  · split at h
    · rename_i hl
      simp at h
      exact h ▸ checkLossStrategy_wf params md lossToken _ hl
    · simp at h
      exact runStrategyCascade_wf params md (saveCurrentMarketData md db) arbSt memeToken
        hmin hmeme hsnap d h
  · simp at h
    exact runStrategyCascade_wf params md (saveCurrentMarketData md db) arbSt memeToken
      hmin hmeme hsnap d h


/-- Witness for C9 (amended): the concrete scenario-1 cycle returns the
stable-rebalancing buy, which is well-formed. -/
theorem cascade_decisions_wellformed_witness :
    (scenario1Buy.action = Action.buy ∨ scenario1Buy.action = Action.sell) ∧
    0 < scenario1Buy.amount ∧ 0 ≤ scenario1Buy.confidence ∧ scenario1Buy.confidence ≤ 1 := by
  have hsnap : snapshotOK scenario1Md := by
    constructor
    · intro t ht
      simp [scenario1Md] at ht
      rcases ht with rfl | rfl | rfl <;> norm_num
    · intro p hp
      simp [scenario1Md] at hp
      rcases hp with rfl | rfl | rfl <;> norm_num
  have hreb : checkRebalancing getDefaultParams scenario1Md = some scenario1Buy := by
    simp [checkRebalancing, rebalanceLoop, allocOf, lookupPrice, scenario1Md,
      scenario1Buy, getDefaultParams, USDC, WETH, WBTC, abs_of_nonneg, abs_of_nonpos]
    norm_num [abs_of_nonneg]
  have hdec : (makeDecision getDefaultParams scenario1Md emptyDb initialArbState none
      none none).decision = some scenario1Buy := by
    have hllm : getDefaultParams.llmEnabled = false := rfl
    have hloss : getDefaultParams.lossStrategyEnabled = false := rfl
    simp [makeDecision, decideAfterAdvisory, runStrategyCascade, hllm, hloss, hreb]
  exact cascade_decisions_wellformed getDefaultParams scenario1Md emptyDb initialArbState
    none none none (Or.inl rfl) (by norm_num [getDefaultParams])
    (by norm_num [getDefaultParams]) (by norm_num [getDefaultParams])
    hsnap scenario1Buy hdec

end RecallAgent
